import Mathlib

/-!
Verification development for the ollama-exporter repository.

The definitions below are a shallow embedding of `src/http-client.ts`,
`src/metrics.ts` and `src/exporter.ts`.  JavaScript numbers that can be `NaN`
are modelled by `JsNum`; a prom-client metric family is modelled as an
association list from its label combination to its `JsNum` value, in hashmap
insertion order (prom-client `set` replaces the value in place for an existing
label combination and appends a new one at the end; `remove` deletes the
entry).  The scrape-duration histogram and the build-info gauge are not part of
any verified property and are not modelled; everything else that
`updateMetrics` touches is.

JavaScript environment facts used by the embedding:
* `x || d` falls back to `d` when `x` is absent, the empty string, or `0`;
  `jsOrStr` / `jsOrInt` encode this with `Option` fields for possibly-absent
  JSON fields.
* `new Date(s)` never throws; an unparseable string yields an Invalid Date
  whose `getTime()` is `NaN`.  `jsDateParse` models `Date.parse` restricted to
  the ISO-8601 UTC shape `YYYY-MM-DDTHH:MM:SSZ`; every other string is
  modelled as Invalid Date (`none`).  The theorems evaluate it only on strings
  of this shape or on strings that are invalid in JavaScript as well.
* prom-client `Gauge.remove(...values)` requires exactly one value per
  declared label name (`getLabels` raises `InvalidArgumentError` otherwise),
  so `OLLAMA_MODEL_INFO.remove(name)` — one value for a six-label gauge —
  throws; the throw is caught by the surrounding `try` in
  `updateModelMetrics`.
* `Map` keeps the first-insertion position of a key on later `set` and
  iterates keys in insertion order; `Set` likewise.
-/

/-- A JavaScript number as stored in a gauge: either `NaN` or a rational. -/
inductive JsNum where
  | nan : JsNum
  | num (q : ℚ) : JsNum
deriving DecidableEq, Repr

/-- A prom-client metric family: label combination to value, insertion order. -/
abbrev Series (α : Type) := List (α × JsNum)

/-- Label combinations of the series that are present in a family. -/
def keysOf {α : Type} (s : Series α) : List α :=
  s.map Prod.fst

/-- prom-client `set`: replace the entry in place if the label combination
exists (label combinations are unique keys of the prom-client hashmap),
otherwise append it at the end. -/
def setSeries {α : Type} [DecidableEq α] : Series α → α → JsNum → Series α
  | [], k, v => [(k, v)]
  | p :: t, k, v => if p.1 = k then (k, v) :: t else p :: setSeries t k v

/-- prom-client `remove`: delete the entry for a label combination. -/
def removeSeries {α : Type} [DecidableEq α] (s : Series α) (k : α) : Series α :=
  s.filter (fun p => p.1 ≠ k)

/-- The value currently stored for a label combination, if any. -/
def lookupSeries {α : Type} [DecidableEq α] : Series α → α → Option JsNum
  | [], _ => none
  | p :: t, k => if p.1 = k then some p.2 else lookupSeries t k

/-- Fold of `setSeries` over a list of assignments, in program order. -/
def setList {α : Type} [DecidableEq α] : Series α → List (α × JsNum) → Series α
  | s, [] => s
  | s, (k, v) :: l => setList (setSeries s k v) l

/-- Fold of `removeSeries` over a list of label combinations. -/
def removeList {α : Type} [DecidableEq α] : Series α → List α → Series α
  | s, [] => s
  | s, k :: l => removeList (removeSeries s k) l

/-- JavaScript `x || d` for a possibly-absent string field: absent and the
empty string both fall back to the default. -/
def jsOrStr (x : Option String) (d : String) : String :=
  match x with
  | none => d
  | some s => if s = "" then d else s

/-- JavaScript `x || d` for a possibly-absent integer field: absent and `0`
both fall back to the default. -/
def jsOrInt (x : Option Int) (d : Int) : Int :=
  match x with
  | none => d
  | some n => if n = 0 then d else n

/-- JavaScript `Set.add`: append the element unless it is already present. -/
def jsSetAdd (s : List String) (k : String) : List String :=
  if k ∈ s then s else s ++ [k]

/-- The element list of `new Set(l)`: first occurrences, in order. -/
def jsSetOf (l : List String) : List String :=
  l.foldl jsSetAdd []

/-- JavaScript `Map.set`: overwrite in place for an existing key (keys are
unique in a `Map`), append a new key at the end. -/
def jsMapSet {β : Type} : List (String × β) → String → β → List (String × β)
  | [], k, v => [(k, v)]
  | p :: t, k, v => if p.1 = k then (k, v) :: t else p :: jsMapSet t k v

/-- The entry list of `new Map(l)` built from key/value pairs. -/
def jsMapOf {β : Type} (l : List (String × β)) : List (String × β) :=
  l.foldl (fun m p => jsMapSet m p.1 p.2) []

/-- Numeric value of a decimal digit character. -/
def digitVal (c : Char) : Nat :=
  c.toNat - 48

/-- Whether every character of the list is a decimal digit. -/
def allDigits (l : List Char) : Bool :=
  l.all Char.isDigit

/-- Decimal number denoted by a digit list. -/
def digitsToNat (l : List Char) : Nat :=
  l.foldl (fun n c => 10 * n + digitVal c) 0

/-- Whether a year is a leap year (proleptic Gregorian, as ECMAScript). -/
def isLeapYear (y : Nat) : Bool :=
  (y % 4 = 0 && y % 100 ≠ 0) || y % 400 = 0

/-- Number of days in a month of a year. -/
def daysInMonth (y m : Nat) : Nat :=
  if m = 1 ∨ m = 3 ∨ m = 5 ∨ m = 7 ∨ m = 8 ∨ m = 10 ∨ m = 12 then 31
  else if m = 2 then (if isLeapYear y then 29 else 28)
  else 30

/-- Days from 1970-01-01 to the given civil date (valid for years ≥ 1). -/
def daysFromCivil (y m d : Nat) : Int :=
  let yy : Int := if m ≤ 2 then (y : Int) - 1 else (y : Int)
  let era : Int := yy / 400
  let yoe : Int := yy - era * 400
  let mp : Int := if m > 2 then (m : Int) - 3 else (m : Int) + 9
  let doy : Int := (153 * mp + 2) / 5 + (d : Int) - 1
  let doe : Int := yoe * 365 + yoe / 4 - yoe / 100 + doy
  era * 146097 + doe - 719468

/-- Modelled from ECMAScript `Date.parse` restricted to the UTC ISO shape
`YYYY-MM-DDTHH:MM:SSZ`: returns epoch milliseconds, or `none` for Invalid
Date.  Strings outside this shape are modelled as Invalid Date. -/
def jsDateParse (s : String) : Option Int :=
  let cs := s.toList
  if cs.length = 20 then
    let get : Nat → Char := fun i => cs.getD i ' '
    let digits : List Char :=
      [get 0, get 1, get 2, get 3, get 5, get 6, get 8, get 9,
       get 11, get 12, get 14, get 15, get 17, get 18]
    if allDigits digits ∧ get 4 = '-' ∧ get 7 = '-' ∧ get 10 = 'T' ∧
        get 13 = ':' ∧ get 16 = ':' ∧ get 19 = 'Z' then
      let y := digitsToNat [get 0, get 1, get 2, get 3]
      let mo := digitsToNat [get 5, get 6]
      let d := digitsToNat [get 8, get 9]
      let hh := digitsToNat [get 11, get 12]
      let mi := digitsToNat [get 14, get 15]
      let ss := digitsToNat [get 17, get 18]
      if 1 ≤ mo ∧ mo ≤ 12 ∧ 1 ≤ d ∧ d ≤ daysInMonth y mo ∧
          hh ≤ 23 ∧ mi ≤ 59 ∧ ss ≤ 59 then
        some ((daysFromCivil y mo d * 86400 + (hh : Int) * 3600 + (mi : Int) * 60 + (ss : Int)) * 1000)
      else none
    else none
  else none

/-- `details` object of a model record from `/api/tags` (`exporter.ts`). -/
structure ModelDetails where
  family : Option String := none
  format : Option String := none
  parameter_size : Option String := none
  quantization_level : Option String := none
  parent_model : Option String := none
deriving DecidableEq, Repr

/-- A model record from `/api/tags` (`OllamaModel` in `exporter.ts`).  Fields
are `Option` because the code guards each use with a `||` fallback. -/
structure OllamaModel where
  name : Option String := none
  size : Option Int := none
  modified_at : Option String := none
  details : Option ModelDetails := none
deriving DecidableEq, Repr

/-- A record from `/api/ps` (`OllamaRunningModel` in `exporter.ts`). -/
structure OllamaRunningModel where
  name : Option String := none
  size_vram : Option Int := none
deriving DecidableEq, Repr

/-- Parsed body of `/api/version`. -/
structure OllamaVersionResponse where
  version : Option String := none
deriving DecidableEq, Repr

/-- Parsed body of `/api/tags`; `models` is guarded by `|| []`. -/
structure OllamaTagsResponse where
  models : Option (List OllamaModel) := none
deriving DecidableEq, Repr

/-- Parsed body of `/api/ps`; `models` is guarded by `|| []`. -/
structure OllamaPsResponse where
  models : Option (List OllamaRunningModel) := none
deriving DecidableEq, Repr

/-- Label combination of the six-label `ollama_model_info` gauge. -/
structure ModelInfoLabels where
  model_name : String
  family : String
  format : String
  parameter_size : String
  quantization_level : String
  parent_model : String
deriving DecidableEq, Repr

/-- The metric registry of `metrics.ts`, restricted to the instruments that
`updateMetrics` touches.  The scrape-duration histogram and the constant
build-info gauge are not modelled.  Unlabeled gauges start at `0`
(prom-client initialises them on registration); the scrapes-total counter is
split into its two label values. -/
structure Registry where
  ollama_up : JsNum := JsNum.num 0
  ollama_version_info : Series String := []
  ollama_models_total : JsNum := JsNum.num 0
  ollama_model_info : Series ModelInfoLabels := []
  ollama_model_size_bytes : Series String := []
  ollama_model_modified_timestamp : Series String := []
  ollama_running_models : Series String := []
  ollama_model_memory_bytes : Series String := []
  scrapes_success : Nat := 0
  scrapes_error : Nat := 0
  last_scrape_timestamp : JsNum := JsNum.num 0
deriving DecidableEq, Repr

/-- The registry right after `metrics.ts` registration. -/
def Registry.init : Registry := {}

/-- Mutable exporter state: the two last-observed snapshots
(`lastModels : Map<string, OllamaModel>` and `lastRunningModels : Set<string>`
in `exporter.ts`), as entry lists in insertion order. -/
structure ExporterState where
  lastModels : List (String × OllamaModel) := []
  lastRunningModels : List String := []
deriving DecidableEq, Repr

/-- The state at `OllamaExporter` construction: both snapshots empty. -/
def ExporterState.init : ExporterState := {}

/-- `model.name || 'unknown'`. -/
def modelName (m : OllamaModel) : String :=
  jsOrStr m.name "unknown"

/-- `model.name || 'unknown'` for a running-model record. -/
def runningName (m : OllamaRunningModel) : String :=
  jsOrStr m.name "unknown"

/-- `checkOllamaHealth`: on a truthy `/api/version` body, set the
version-info gauge and report healthy; otherwise report unhealthy. -/
def checkOllamaHealth (versionData : Option OllamaVersionResponse) (reg : Registry) :
    Registry × Bool :=
  match versionData with
  | some v =>
      ({ reg with ollama_version_info :=
          (setSeries reg.ollama_version_info (jsOrStr v.version "unknown") (JsNum.num 1)) }, true)
  | none => (reg, false)

/-- The stale-model removal loop of `updateModelMetrics`.  For a stale name
the code removes the size and modified-timestamp series and then calls
`OLLAMA_MODEL_INFO.remove(oldModel)` — one label value for a six-label gauge —
which throws `InvalidArgumentError` in prom-client; `Except.error` carries the
registry as mutated up to the throw. -/
def removeStale (current : List String) : List String → Registry → Except Registry Registry
  | [], reg => Except.ok reg
  | old :: rest, reg =>
      if old ∈ current then removeStale current rest reg
      else
        Except.error
          { reg with
            ollama_model_size_bytes := removeSeries reg.ollama_model_size_bytes old,
            ollama_model_modified_timestamp :=
              removeSeries reg.ollama_model_modified_timestamp old }

/-- The six-label combination written for a model: each detail field falls
back to `"unknown"` when absent or empty. -/
def infoKey (model : OllamaModel) : ModelInfoLabels :=
  let details := model.details.getD ({} : ModelDetails)
  { model_name := jsOrStr model.name "unknown",
    family := jsOrStr details.family "unknown",
    format := jsOrStr details.format "unknown",
    parameter_size := jsOrStr details.parameter_size "unknown",
    quantization_level := jsOrStr details.quantization_level "unknown",
    parent_model := jsOrStr details.parent_model "unknown" }

/-- The value written to the modified-timestamp gauge:
`new Date(modifiedAt).getTime() / 1000`, which is `NaN` when the string does
not parse as a date. -/
def modifiedVal (model : OllamaModel) : JsNum :=
  match jsDateParse (jsOrStr model.modified_at "") with
  | some ms => JsNum.num ((ms : ℚ) / 1000)
  | none => JsNum.nan

/-- Body of the per-model loop of `updateModelMetrics`: set the six-label
info gauge, the size gauge, and — when `modified_at` is truthy — the
modified-timestamp gauge. -/
def setModelMetrics (reg : Registry) (model : OllamaModel) : Registry :=
  let name := jsOrStr model.name "unknown"
  let size := jsOrInt model.size 0
  let modifiedAt := jsOrStr model.modified_at ""
  let reg :=
    { reg with ollama_model_info :=
        (setSeries reg.ollama_model_info (infoKey model) (JsNum.num 1)) }
  let reg :=
    { reg with ollama_model_size_bytes :=
        (setSeries reg.ollama_model_size_bytes name (JsNum.num size)) }
  if modifiedAt ≠ "" then
    { reg with ollama_model_modified_timestamp :=
        (setSeries reg.ollama_model_modified_timestamp name (modifiedVal model)) }
  else reg

/-- The per-model loop of `updateModelMetrics` over the inventory list. -/
def modelLoop : List OllamaModel → Registry → Registry
  | [], reg => reg
  | m :: rest, reg => modelLoop rest (setModelMetrics reg m)

/-- The `try` body of `updateModelMetrics`: removal diff, models-total,
per-model gauge updates, snapshot replacement.  `Except.error` is the
registry at the point of the `OLLAMA_MODEL_INFO.remove` throw. -/
def processModels (models : List OllamaModel) (st : ExporterState) (reg : Registry) :
    Except Registry (ExporterState × Registry) :=
  let currentModels := jsSetOf (models.map modelName)
  match removeStale currentModels (st.lastModels.map Prod.fst) reg with
  | Except.error r => Except.error r
  | Except.ok reg =>
      let reg := { reg with ollama_models_total := JsNum.num (models.length : ℚ) }
      let reg := modelLoop models reg
      Except.ok
        ({ st with lastModels := jsMapOf (models.map (fun m => (modelName m, m))) }, reg)

/-- `updateModelMetrics`: fetch `/api/tags` (its result is the `tags`
argument; `none` is the Failure signal), then run the `try` body; a thrown
error is caught, logged and turned into `false` with the snapshot untouched
but the registry keeping the mutations made before the throw. -/
def updateModelMetrics (tags : Option OllamaTagsResponse) (st : ExporterState)
    (reg : Registry) : ExporterState × Registry × Bool :=
  match tags with
  | none => (st, reg, false)
  | some data =>
      let models := data.models.getD []
      match processModels models st reg with
      | Except.ok (st1, reg1) => (st1, reg1, true)
      | Except.error reg1 => (st, reg1, false)

/-- The unconditional clearing loop of `updateRunningMetrics`: remove the
running and memory series of every name in the previous running snapshot. -/
def clearRunning : List String → Registry → Registry
  | [], reg => reg
  | old :: rest, reg =>
      clearRunning rest
        { reg with
          ollama_running_models := removeSeries reg.ollama_running_models old,
          ollama_model_memory_bytes := removeSeries reg.ollama_model_memory_bytes old }

/-- Body of the per-record loop of `updateRunningMetrics`: set
`running_models` to 1 and set `model_memory_bytes` only when
`size_vram > 0`. -/
def setRunningMetrics (reg : Registry) (m : OllamaRunningModel) : Registry :=
  let name := runningName m
  let sizeVram := jsOrInt m.size_vram 0
  let reg :=
    { reg with ollama_running_models :=
        (setSeries reg.ollama_running_models name (JsNum.num 1)) }
  if 0 < sizeVram then
    { reg with ollama_model_memory_bytes :=
        (setSeries reg.ollama_model_memory_bytes name (JsNum.num sizeVram)) }
  else reg

/-- The per-record loop of `updateRunningMetrics`: accumulate the current
running set and apply `setRunningMetrics` for each record. -/
def runLoop : List OllamaRunningModel → List String → Registry → List String × Registry
  | [], cur, reg => (cur, reg)
  | m :: rest, cur, reg =>
      runLoop rest (jsSetAdd cur (runningName m)) (setRunningMetrics reg m)

/-- `updateRunningMetrics`: fetch `/api/ps` (`none` is the Failure signal),
clear every previously running series, re-add the current records, replace the
running snapshot.  The typed `try` body cannot throw (all removes here pass
one value for the one declared label). -/
def updateRunningMetrics (ps : Option OllamaPsResponse) (st : ExporterState)
    (reg : Registry) : ExporterState × Registry × Bool :=
  match ps with
  | none => (st, reg, false)
  | some data =>
      let reg := clearRunning st.lastRunningModels reg
      let models := data.models.getD []
      let (currentRunning, reg) := runLoop models [] reg
      ({ st with lastRunningModels := currentRunning }, reg, true)

/-- The three upstream responses a cycle sees; `none` is the collapsed
Failure signal of `apiRequest` for the corresponding endpoint. -/
structure Upstream where
  version : Option OllamaVersionResponse
  tags : Option OllamaTagsResponse
  ps : Option OllamaPsResponse
deriving DecidableEq, Repr

/-- Result of one `updateMetrics` cycle: final snapshots and registry, the
cycle success flag, and the upstream endpoints requested, in order. -/
structure CycleResult where
  state : ExporterState
  reg : Registry
  success : Bool
  calls : List String
deriving DecidableEq, Repr

/-- `updateMetrics`: one scrape cycle.  Probe health and set `ollama_up`;
when healthy run the inventory and running updates (both are attempted even if
the first fails); on full success set the last-scrape timestamp to `now`;
finally increment exactly one of the two scrapes-total label values.  The
outer `catch` of the source is unreachable in the embedding because every
inner throw is already caught inside `updateModelMetrics`. -/
def updateMetrics (u : Upstream) (st : ExporterState) (reg : Registry) (now : ℚ) :
    CycleResult :=
  let (reg, ollamaUp) := checkOllamaHealth u.version reg
  let reg := { reg with ollama_up := JsNum.num (if ollamaUp then 1 else 0) }
  let (st, reg, success, calls) :=
    if ollamaUp then
      let (st, reg, invOk) := updateModelMetrics u.tags st reg
      let (st, reg, runOk) := updateRunningMetrics u.ps st reg
      (st, reg, invOk && runOk, ["version", "tags", "ps"])
    else
      (st, reg, false, ["version"])
  let reg :=
    if success then { reg with last_scrape_timestamp := JsNum.num now } else reg
  let reg :=
    if success then { reg with scrapes_success := reg.scrapes_success + 1 }
    else { reg with scrapes_error := reg.scrapes_error + 1 }
  { state := st, reg := reg, success := success, calls := calls }

/-- The three sub-step outcomes of a cycle (health probe, inventory update,
running update), threaded exactly as `updateMetrics` threads them. -/
def cycleSubOutcomes (u : Upstream) (st : ExporterState) (reg : Registry) :
    Bool × Bool × Bool :=
  let (reg, ollamaUp) := checkOllamaHealth u.version reg
  let reg := { reg with ollama_up := JsNum.num (if ollamaUp then 1 else 0) }
  let (st, reg, invOk) := updateModelMetrics u.tags st reg
  let (_, _, runOk) := updateRunningMetrics u.ps st reg
  (ollamaUp, invOk, runOk)

/-- A caller-supplied `AbortSignal` (identified by an id). -/
structure AbortSignalRef where
  id : Nat
deriving DecidableEq, Repr

/-- `HttpRequestOptions` of `http-client.ts`. -/
structure HttpRequestOptions where
  method : Option String := none
  headers : Option (List (String × String)) := none
  body : Option String := none
  timeout : Option ℚ := none
  signal : Option AbortSignalRef := none
deriving DecidableEq, Repr

/-- The signal actually placed in the `RequestInit` passed to `fetch`:
`options.signal || controller.signal` (an `AbortSignal` object is always
truthy, so a supplied signal always wins over the internal controller). -/
inductive UsedSignal where
  | caller (s : AbortSignalRef) : UsedSignal
  | internalController : UsedSignal
deriving DecidableEq, Repr

/-- The `RequestInit` object built by `FetchHttpClient.request`. -/
structure RequestInitModel where
  method : String
  signal : UsedSignal
  headers : List (String × String)
  body : Option String
deriving DecidableEq, Repr

/-- The `fetchOptions` construction of `FetchHttpClient.request`:
`method: options.method || 'GET'`, `signal: options.signal ||
controller.signal`, `headers: options.headers || {}`, and `body` only when
`options.body` is truthy. -/
def buildFetchOptions (o : HttpRequestOptions) : RequestInitModel :=
  { method :=
      (match o.method with
       | some m => if m = "" then "GET" else m
       | none => "GET"),
    signal :=
      (match o.signal with
       | some s => UsedSignal.caller s
       | none => UsedSignal.internalController),
    headers := o.headers.getD [],
    body :=
      (match o.body with
       | some b => if b = "" then none else some b
       | none => none) }

/-- Whether `FetchHttpClient.request` schedules the abort timer:
`options.timeout ? setTimeout(...) : undefined`, so a timeout of `0` (falsy)
schedules nothing. -/
def timerScheduled (o : HttpRequestOptions) : Bool :=
  match o.timeout with
  | none => false
  | some t => t ≠ 0

/-- What the upstream server does with the request, with the parsed JSON body
the response would deliver; `noResponse` is a transport failure (the `fetch`
promise rejects). -/
inductive ServerBehavior (T : Type) where
  | noResponse : ServerBehavior T
  | reply (ok : Bool) (status : Nat) (statusText : String) (json : Option T) : ServerBehavior T
deriving DecidableEq, Repr

/-- The asynchronous events around one request: whether the timeout deadline
elapses before the server settles, and whether the caller-supplied signal (if
any) fires before the server settles. -/
structure RequestWorld where
  timeoutElapses : Bool
  callerAborted : Bool
deriving DecidableEq, Repr

/-- The `HttpResponse` wrapper returned by `FetchHttpClient.request`;
`json` is what `response.json()` delivers (`none` when that promise
rejects). -/
structure HttpResponseModel (T : Type) where
  ok : Bool
  status : Nat
  statusText : String
  json : Option T
deriving DecidableEq, Repr

/-- `FetchHttpClient.request`: build the fetch options, run `fetch`, wrap the
response; any rejection (transport error, or abort of the signal actually
passed to `fetch`) is caught and becomes `null`.  The internal controller
aborts `fetch` only when its signal was the one passed and the timer both was
scheduled and elapses. -/
def FetchHttpClient.request {T : Type} (server : ServerBehavior T) (w : RequestWorld)
    (o : HttpRequestOptions) : Option (HttpResponseModel T) :=
  let fo := buildFetchOptions o
  let aborted :=
    match fo.signal with
    | UsedSignal.caller _ => w.callerAborted
    | UsedSignal.internalController => timerScheduled o && w.timeoutElapses
  if aborted then none
  else
    match server with
    | ServerBehavior.noResponse => none
    | ServerBehavior.reply ok status statusText json =>
        some { ok := ok, status := status, statusText := statusText, json := json }

/-- `OllamaExporter.apiRequest`: GET with a JSON content-type header and the
configured timeout in milliseconds, no caller signal; a null response, a
non-2xx response, or a `json()` rejection each collapse to `null`, and the
outer `try` keeps every other error from escaping. -/
def OllamaExporter.apiRequest {T : Type} (apiTimeoutMs : ℚ) (server : ServerBehavior T)
    (w : RequestWorld) : Option T :=
  let opts : HttpRequestOptions :=
    { method := some "GET",
      headers := some [("Content-Type", "application/json")],
      body := none,
      timeout := some apiTimeoutMs,
      signal := none }
  match FetchHttpClient.request server w opts with
  | none => none
  | some response =>
      if !response.ok then none
      else
        match response.json with
        | none => none
        | some t => some t


/-- The key list after `setSeries`: unchanged when the key is present,
appended otherwise. -/
theorem keysOf_setSeries {α : Type} [DecidableEq α] (s : Series α) (k : α) (v : JsNum) :
    keysOf (setSeries s k v) = if k ∈ keysOf s then keysOf s else keysOf s ++ [k] := by
  induction s with
  | nil => simp [setSeries, keysOf]
  | cons p t ih =>
      simp only [keysOf, List.map_cons] at ih ⊢
      by_cases hp : p.1 = k
      · simp [setSeries, hp]
      · have hkp : ¬(k = p.1) := fun hk => hp hk.symm
        by_cases ht : k ∈ List.map Prod.fst t
        · simp only [setSeries, hp, if_false, List.map_cons]
          rw [ih, if_pos ht, if_pos (by simp [ht])]
        · simp only [setSeries, hp, if_false, List.map_cons]
          rw [ih, if_neg ht, if_neg (by simp [ht, hkp])]
          simp

/-- Membership in the key list after `setSeries`. -/
theorem mem_keysOf_setSeries {α : Type} [DecidableEq α] {s : Series α} {k a : α} {v : JsNum} :
    a ∈ keysOf (setSeries s k v) ↔ a ∈ keysOf s ∨ a = k := by
  rw [keysOf_setSeries]
  by_cases h : k ∈ keysOf s
  · simp only [h, if_true]
    constructor
    · exact Or.inl
    · rintro (ha | rfl)
      · exact ha
      · exact h
  · simp [h]

/-- `setSeries` preserves distinctness of the key list. -/
theorem nodup_keysOf_setSeries {α : Type} [DecidableEq α] {s : Series α} {k : α} {v : JsNum}
    (h : (keysOf s).Nodup) : (keysOf (setSeries s k v)).Nodup := by
  rw [keysOf_setSeries]
  by_cases hk : k ∈ keysOf s
  · simpa [hk] using h
  · simp only [hk, if_false]
    simpa [List.nodup_append] using ⟨h, hk⟩

/-- Lookup after `setSeries`: the written key reads back the written value,
every other key is unchanged. -/
theorem lookupSeries_setSeries {α : Type} [DecidableEq α] (s : Series α) (k a : α) (v : JsNum) :
    lookupSeries (setSeries s k v) a = if k = a then some v else lookupSeries s a := by
  induction s with
  | nil => simp [setSeries, lookupSeries]
  | cons p t ih =>
      by_cases hp : p.1 = k
      · by_cases hka : k = a
        · simp [setSeries, lookupSeries, hp, hka]
        · simp [setSeries, lookupSeries, hp, hka, hp.symm ▸ hka]
      · simp only [setSeries, hp, if_false]
        by_cases hpa : p.1 = a
        · have : ¬(k = a) := fun hka => hp (hka ▸ hpa)
          simp [lookupSeries, hpa, this]
        · simp [lookupSeries, hpa, ih]

/-- Membership in the key list after a `setList`. -/
theorem mem_keysOf_setList {α : Type} [DecidableEq α] {l : List (α × JsNum)} {s : Series α}
    {a : α} : a ∈ keysOf (setList s l) ↔ a ∈ keysOf s ∨ a ∈ l.map Prod.fst := by
  induction l generalizing s with
  | nil => simp [setList]
  | cons q l ih =>
      rcases q with ⟨k, v⟩
      rw [setList, ih]
      rw [mem_keysOf_setSeries]
      simp [or_assoc, eq_comm]

/-- `setList` keeps the key list unchanged when every written key is already
present. -/
theorem keysOf_setList_of_subset {α : Type} [DecidableEq α] {l : List (α × JsNum)}
    {s : Series α} (h : ∀ k ∈ l.map Prod.fst, k ∈ keysOf s) :
    keysOf (setList s l) = keysOf s := by
  induction l generalizing s with
  | nil => rfl
  | cons q l ih =>
      rcases q with ⟨k, v⟩
      rw [setList]
      have hk : k ∈ keysOf s := h k (by simp)
      have : keysOf (setSeries s k v) = keysOf s := by
        rw [keysOf_setSeries, if_pos hk]
      rw [ih, this]
      intro a ha
      rw [this]
      exact h a (by simp [ha])

/-- `setList` preserves distinctness of the key list. -/
theorem nodup_keysOf_setList {α : Type} [DecidableEq α] {l : List (α × JsNum)} {s : Series α}
    (h : (keysOf s).Nodup) : (keysOf (setList s l)).Nodup := by
  induction l generalizing s with
  | nil => exact h
  | cons q l ih =>
      rcases q with ⟨k, v⟩
      exact ih (nodup_keysOf_setSeries h)

/-- The last value assigned to a key by an assignment list, if any. -/
def lastAssign {α : Type} [DecidableEq α] : List (α × JsNum) → α → Option JsNum
  | [], _ => none
  | (k, v) :: l, a =>
      match lastAssign l a with
      | some w => some w
      | none => if k = a then some v else none

/-- Lookup after `setList`: the last assignment wins, otherwise the original
series answers. -/
theorem lookupSeries_setList {α : Type} [DecidableEq α] (l : List (α × JsNum)) (s : Series α)
    (a : α) :
    lookupSeries (setList s l) a =
      match lastAssign l a with
      | some w => some w
      | none => lookupSeries s a := by
  induction l generalizing s with
  | nil => simp [setList, lastAssign]
  | cons q l ih =>
      rcases q with ⟨k, v⟩
      rw [setList, ih, lastAssign]
      cases h : lastAssign l a with
      | some w => simp
      | none =>
          by_cases hk : k = a <;> simp [hk, lookupSeries_setSeries]

/-- A successful lookup means the key is present. -/
theorem lookupSeries_mem_keys {α : Type} [DecidableEq α] {s : Series α} {a : α} {w : JsNum}
    (h : lookupSeries s a = some w) : a ∈ keysOf s := by
  induction s with
  | nil => simp [lookupSeries] at h
  | cons p t ih =>
      rw [lookupSeries] at h
      by_cases hp : p.1 = a
      · simp [keysOf, hp]
      · rw [if_neg hp] at h
        have := ih h
        simp only [keysOf, List.map_cons, List.mem_cons]
        right
        simpa [keysOf] using this

/-- Two series with the same key list, distinct keys, and the same lookups
are equal. -/
theorem series_ext {α : Type} [DecidableEq α] {s t : Series α} (hk : keysOf s = keysOf t)
    (hd : (keysOf s).Nodup) (hl : ∀ a, lookupSeries s a = lookupSeries t a) : s = t := by
  induction s generalizing t with
  | nil =>
      cases t with
      | nil => rfl
      | cons q t => simp [keysOf] at hk
  | cons p s ih =>
      cases t with
      | nil => simp [keysOf] at hk
      | cons q t =>
          simp only [keysOf, List.map_cons, List.cons.injEq] at hk
          have hpq1 : p.1 = q.1 := hk.1
          have hval := hl p.1
          rw [lookupSeries, lookupSeries, if_pos rfl, if_pos hpq1.symm] at hval
          have hp2 : p.2 = q.2 := by injection hval
          have hnotin : p.1 ∉ keysOf s := by
            simp only [keysOf, List.map_cons, List.nodup_cons] at hd
            exact fun hmem => hd.1 (by simpa [keysOf] using hmem)
          have htail : s = t := by
            refine ih ?_ ?_ ?_
            · exact hk.2
            · simp only [keysOf, List.map_cons, List.nodup_cons] at hd
              exact hd.2
            · intro a
              by_cases ha : a = p.1
              · have h1 : lookupSeries s a = none := by
                  cases h : lookupSeries s a with
                  | none => rfl
                  | some w => exact absurd (ha ▸ lookupSeries_mem_keys h) hnotin
                have h2 : lookupSeries t a = none := by
                  cases h : lookupSeries t a with
                  | none => rfl
                  | some w =>
                      have hmem : a ∈ keysOf t := lookupSeries_mem_keys h
                      rw [show keysOf t = keysOf s from by
                            simp only [keysOf]; exact hk.2.symm] at hmem
                      exact absurd (ha ▸ hmem) hnotin
                rw [h1, h2]
              · have := hl a
                rw [lookupSeries, lookupSeries] at this
                have hap : ¬(p.1 = a) := fun h => ha h.symm
                have haq : ¬(q.1 = a) := fun h => ha (hpq1 ▸ h).symm
                rwa [if_neg hap, if_neg haq] at this
          rcases p with ⟨p1, p2⟩
          rcases q with ⟨q1, q2⟩
          simp only at hpq1 hp2
          rw [hpq1, hp2, htail]

/-- Replaying the same assignment list over its own result changes nothing
(for a series with distinct keys). -/
theorem setList_overwrite {α : Type} [DecidableEq α] {s : Series α} (l : List (α × JsNum))
    (hd : (keysOf s).Nodup) : setList (setList s l) l = setList s l := by
  refine series_ext ?_ ?_ ?_
  · refine keysOf_setList_of_subset ?_
    intro k hk
    rw [mem_keysOf_setList]
    exact Or.inr hk
  · exact nodup_keysOf_setList (nodup_keysOf_setList hd)
  · intro a
    rw [lookupSeries_setList, lookupSeries_setList]
    cases h : lastAssign l a with
    | some w => simp [h]
    | none => simp [h]

/-- Membership in the key list after a `removeSeries`. -/
theorem mem_keysOf_removeSeries {α : Type} [DecidableEq α] {s : Series α} {k a : α} :
    a ∈ keysOf (removeSeries s k) ↔ a ∈ keysOf s ∧ a ≠ k := by
  unfold removeSeries keysOf
  constructor
  · intro h
    rcases List.mem_map.mp h with ⟨p, hp, rfl⟩
    have := List.of_mem_filter hp
    exact ⟨List.mem_map_of_mem Prod.fst (List.mem_of_mem_filter hp), by simpa using this⟩
  · rintro ⟨h, hne⟩
    rcases List.mem_map.mp h with ⟨p, hp, rfl⟩
    exact List.mem_map_of_mem Prod.fst (List.mem_filter_of_mem hp (by simpa using hne))

/-- Membership in the key list after a `removeList`. -/
theorem mem_keysOf_removeList {α : Type} [DecidableEq α] {ks : List α} {s : Series α} {a : α} :
    a ∈ keysOf (removeList s ks) ↔ a ∈ keysOf s ∧ a ∉ ks := by
  induction ks generalizing s with
  | nil => simp [removeList]
  | cons k ks ih =>
      rw [removeList, ih, mem_keysOf_removeSeries]
      constructor
      · rintro ⟨⟨h1, h2⟩, h3⟩
        exact ⟨h1, by simp [h2, h3]⟩
      · rintro ⟨h1, h2⟩
        simp only [List.mem_cons, not_or] at h2
        exact ⟨⟨h1, h2.1⟩, h2.2⟩

/-- Removing every key of a series empties it. -/
theorem removeList_eq_nil_of_subset {α : Type} [DecidableEq α] {ks : List α} {s : Series α}
    (h : ∀ p ∈ s, p.1 ∈ ks) : removeList s ks = [] := by
  induction ks generalizing s with
  | nil =>
      cases s with
      | nil => rfl
      | cons p t => exact absurd (h p (by simp)) (by simp)
  | cons k ks ih =>
      rw [removeList]
      refine ih ?_
      intro p hp
      have hps : p ∈ s := List.mem_of_mem_filter hp
      have hpk : ¬(p.1 = k) := by simpa using List.of_mem_filter hp
      rcases (by simpa using h p hps : p.1 = k ∨ p.1 ∈ ks) with h1 | h2
      · exact absurd h1 hpk
      · exact h2

/-- Membership after a JavaScript `Set.add`. -/
theorem mem_jsSetAdd {s : List String} {k a : String} :
    a ∈ jsSetAdd s k ↔ a ∈ s ∨ a = k := by
  unfold jsSetAdd
  by_cases hk : k ∈ s
  · rw [if_pos hk]
    constructor
    · exact Or.inl
    · rintro (h | rfl)
      · exact h
      · exact hk
  · rw [if_neg hk]
    simp

/-- Membership in a JavaScript `Set` built by repeated `add`. -/
theorem mem_foldl_jsSetAdd (l : List String) (acc : List String) (a : String) :
    a ∈ l.foldl jsSetAdd acc ↔ a ∈ acc ∨ a ∈ l := by
  induction l generalizing acc with
  | nil => simp
  | cons k l ih =>
      rw [List.foldl_cons, ih, mem_jsSetAdd]
      simp only [List.mem_cons]
      tauto

/-- Membership in `new Set(l)` is membership in `l`. -/
theorem mem_jsSetOf {l : List String} {a : String} : a ∈ jsSetOf l ↔ a ∈ l := by
  unfold jsSetOf
  rw [mem_foldl_jsSetAdd]
  simp

/-- Key membership after a JavaScript `Map.set`. -/
theorem mem_fst_jsMapSet {β : Type} {m : List (String × β)} {k a : String} {v : β} :
    a ∈ (jsMapSet m k v).map Prod.fst ↔ a ∈ m.map Prod.fst ∨ a = k := by
  induction m with
  | nil => simp [jsMapSet]
  | cons p t ih =>
      by_cases hp : p.1 = k
      · subst hp
        rw [show jsMapSet (p :: t) p.1 v = (p.1, v) :: t from by rw [jsMapSet, if_pos rfl]]
        simp only [List.map_cons, List.mem_cons]
        tauto
      · rw [show jsMapSet (p :: t) k v = p :: jsMapSet t k v from by rw [jsMapSet, if_neg hp]]
        simp only [List.map_cons, List.mem_cons, ih]
        tauto

/-- Key membership in `new Map(l)` is membership among the pair keys. -/
theorem mem_fst_jsMapOf {β : Type} {l : List (String × β)} {a : String} :
    a ∈ (jsMapOf l).map Prod.fst ↔ a ∈ l.map Prod.fst := by
  suffices h : ∀ acc : List (String × β),
      a ∈ (l.foldl (fun m p => jsMapSet m p.1 p.2) acc).map Prod.fst ↔
        a ∈ acc.map Prod.fst ∨ a ∈ l.map Prod.fst by
    simpa [jsMapOf] using h []
  induction l with
  | nil => simp
  | cons p t ih =>
      intro acc
      rw [List.foldl_cons, ih, mem_fst_jsMapSet]
      simp only [List.map_cons, List.mem_cons]
      tauto

/-- When no previously observed name is stale, the removal loop succeeds and
touches nothing. -/
theorem removeStale_ok_of_subset (cur : List String) :
    ∀ (ks : List String) (reg : Registry), (∀ k ∈ ks, k ∈ cur) →
      removeStale cur ks reg = Except.ok reg
  | [], reg, _ => rfl
  | k :: ks, reg, h => by
      rw [removeStale, if_pos (h k (by simp))]
      exact removeStale_ok_of_subset cur ks reg (fun a ha => h a (by simp [ha]))

/-- A successful removal loop touched nothing, and every previously observed
name was still current. -/
theorem removeStale_ok_imp (cur : List String) :
    ∀ (ks : List String) (reg r : Registry), removeStale cur ks reg = Except.ok r →
      r = reg ∧ ∀ k ∈ ks, k ∈ cur
  | [], reg, r, h => by
      refine ⟨?_, by simp⟩
      injection h with h
      exact h.symm
  | k :: ks, reg, r, h => by
      by_cases hk : k ∈ cur
      · rw [removeStale, if_pos hk] at h
        obtain ⟨h1, h2⟩ := removeStale_ok_imp cur ks reg r h
        refine ⟨h1, ?_⟩
        intro a ha
        rcases (by simpa using ha : a = k ∨ a ∈ ks) with rfl | ha2
        · exact hk
        · exact h2 a ha2
      · rw [removeStale, if_neg hk] at h
        exact absurd h (by simp)

/-- A failed removal loop changes only the size and modified-timestamp
families. -/
theorem removeStale_error_imp (cur : List String) :
    ∀ (ks : List String) (reg r : Registry), removeStale cur ks reg = Except.error r →
      r.ollama_up = reg.ollama_up ∧
      r.ollama_version_info = reg.ollama_version_info ∧
      r.ollama_models_total = reg.ollama_models_total ∧
      r.ollama_model_info = reg.ollama_model_info ∧
      r.ollama_running_models = reg.ollama_running_models ∧
      r.ollama_model_memory_bytes = reg.ollama_model_memory_bytes ∧
      r.scrapes_success = reg.scrapes_success ∧
      r.scrapes_error = reg.scrapes_error ∧
      r.last_scrape_timestamp = reg.last_scrape_timestamp
  | [], reg, r, h => by exact absurd h (by simp [removeStale])
  | k :: ks, reg, r, h => by
      by_cases hk : k ∈ cur
      · rw [removeStale, if_pos hk] at h
        exact removeStale_error_imp cur ks reg r h
      · rw [removeStale, if_neg hk] at h
        injection h with h
        subst h
        refine ⟨rfl, rfl, rfl, rfl, rfl, rfl, rfl, rfl, rfl⟩

/-- Field-by-field description of one `setModelMetrics` step. -/
theorem setModelMetrics_spec (reg : Registry) (m : OllamaModel) :
    (setModelMetrics reg m).ollama_model_info =
        setSeries reg.ollama_model_info (infoKey m) (JsNum.num 1) ∧
    (setModelMetrics reg m).ollama_model_size_bytes =
        setSeries reg.ollama_model_size_bytes (jsOrStr m.name "unknown")
          (JsNum.num (jsOrInt m.size 0)) ∧
    (setModelMetrics reg m).ollama_model_modified_timestamp =
        (if jsOrStr m.modified_at "" ≠ "" then
          setSeries reg.ollama_model_modified_timestamp (jsOrStr m.name "unknown")
            (modifiedVal m)
         else reg.ollama_model_modified_timestamp) ∧
    (setModelMetrics reg m).ollama_up = reg.ollama_up ∧
    (setModelMetrics reg m).ollama_version_info = reg.ollama_version_info ∧
    (setModelMetrics reg m).ollama_models_total = reg.ollama_models_total ∧
    (setModelMetrics reg m).ollama_running_models = reg.ollama_running_models ∧
    (setModelMetrics reg m).ollama_model_memory_bytes = reg.ollama_model_memory_bytes ∧
    (setModelMetrics reg m).scrapes_success = reg.scrapes_success ∧
    (setModelMetrics reg m).scrapes_error = reg.scrapes_error ∧
    (setModelMetrics reg m).last_scrape_timestamp = reg.last_scrape_timestamp := by
  by_cases hm : jsOrStr m.modified_at "" ≠ "" <;>
    refine ⟨?_, ?_, ?_, ?_, ?_, ?_, ?_, ?_, ?_, ?_, ?_⟩ <;>
    simp [setModelMetrics, hm]

/-- Field-by-field description of the per-model loop: the three model gauge
families are written by `setList`, every other registry field is untouched. -/
theorem modelLoop_spec : ∀ (ms : List OllamaModel) (reg : Registry),
    (modelLoop ms reg).ollama_model_info =
        setList reg.ollama_model_info (ms.map (fun m => (infoKey m, JsNum.num 1))) ∧
    (modelLoop ms reg).ollama_model_size_bytes =
        setList reg.ollama_model_size_bytes
          (ms.map (fun m => (jsOrStr m.name "unknown", JsNum.num (jsOrInt m.size 0)))) ∧
    (modelLoop ms reg).ollama_model_modified_timestamp =
        setList reg.ollama_model_modified_timestamp
          ((ms.filter (fun m => jsOrStr m.modified_at "" ≠ "")).map
            (fun m => (jsOrStr m.name "unknown", modifiedVal m))) ∧
    (modelLoop ms reg).ollama_up = reg.ollama_up ∧
    (modelLoop ms reg).ollama_version_info = reg.ollama_version_info ∧
    (modelLoop ms reg).ollama_models_total = reg.ollama_models_total ∧
    (modelLoop ms reg).ollama_running_models = reg.ollama_running_models ∧
    (modelLoop ms reg).ollama_model_memory_bytes = reg.ollama_model_memory_bytes ∧
    (modelLoop ms reg).scrapes_success = reg.scrapes_success ∧
    (modelLoop ms reg).scrapes_error = reg.scrapes_error ∧
    (modelLoop ms reg).last_scrape_timestamp = reg.last_scrape_timestamp
  | [], reg => by
      refine ⟨?_, ?_, ?_, ?_, ?_, ?_, ?_, ?_, ?_, ?_, ?_⟩ <;> simp [modelLoop, setList]
  | m :: ms, reg => by
      obtain ⟨s1, s2, s3, s4, s5, s6, s7, s8, s9, s10, s11⟩ := setModelMetrics_spec reg m
      obtain ⟨i1, i2, i3, i4, i5, i6, i7, i8, i9, i10, i11⟩ :=
        modelLoop_spec ms (setModelMetrics reg m)
      by_cases hm : jsOrStr m.modified_at "" ≠ "" <;>
        refine ⟨?_, ?_, ?_, ?_, ?_, ?_, ?_, ?_, ?_, ?_, ?_⟩ <;>
        simp [modelLoop, i1, i2, i3, i4, i5, i6, i7, i8, i9, i10, i11,
          s1, s2, s3, s4, s5, s6, s7, s8, s9, s10, s11, hm, setList, List.filter_cons]

/-- Field-by-field description of one `setRunningMetrics` step. -/
theorem setRunningMetrics_spec (reg : Registry) (m : OllamaRunningModel) :
    (setRunningMetrics reg m).ollama_running_models =
        setSeries reg.ollama_running_models (runningName m) (JsNum.num 1) ∧
    (setRunningMetrics reg m).ollama_model_memory_bytes =
        (if 0 < jsOrInt m.size_vram 0 then
          setSeries reg.ollama_model_memory_bytes (runningName m)
            (JsNum.num (jsOrInt m.size_vram 0))
         else reg.ollama_model_memory_bytes) ∧
    (setRunningMetrics reg m).ollama_up = reg.ollama_up ∧
    (setRunningMetrics reg m).ollama_version_info = reg.ollama_version_info ∧
    (setRunningMetrics reg m).ollama_models_total = reg.ollama_models_total ∧
    (setRunningMetrics reg m).ollama_model_info = reg.ollama_model_info ∧
    (setRunningMetrics reg m).ollama_model_size_bytes = reg.ollama_model_size_bytes ∧
    (setRunningMetrics reg m).ollama_model_modified_timestamp =
        reg.ollama_model_modified_timestamp ∧
    (setRunningMetrics reg m).scrapes_success = reg.scrapes_success ∧
    (setRunningMetrics reg m).scrapes_error = reg.scrapes_error ∧
    (setRunningMetrics reg m).last_scrape_timestamp = reg.last_scrape_timestamp := by
  by_cases hv : 0 < jsOrInt m.size_vram 0 <;>
    refine ⟨?_, ?_, ?_, ?_, ?_, ?_, ?_, ?_, ?_, ?_, ?_⟩ <;>
    simp [setRunningMetrics, hv]

/-- Field-by-field description of the running-model loop: the accumulated
set, the two running gauge families, and the untouched registry fields. -/
theorem runLoop_spec : ∀ (ms : List OllamaRunningModel) (cur : List String) (reg : Registry),
    (runLoop ms cur reg).1 = (ms.map runningName).foldl jsSetAdd cur ∧
    (runLoop ms cur reg).2.ollama_running_models =
        setList reg.ollama_running_models (ms.map (fun m => (runningName m, JsNum.num 1))) ∧
    (runLoop ms cur reg).2.ollama_model_memory_bytes =
        setList reg.ollama_model_memory_bytes
          ((ms.filter (fun m => 0 < jsOrInt m.size_vram 0)).map
            (fun m => (runningName m, JsNum.num (jsOrInt m.size_vram 0)))) ∧
    (runLoop ms cur reg).2.ollama_up = reg.ollama_up ∧
    (runLoop ms cur reg).2.ollama_version_info = reg.ollama_version_info ∧
    (runLoop ms cur reg).2.ollama_models_total = reg.ollama_models_total ∧
    (runLoop ms cur reg).2.ollama_model_info = reg.ollama_model_info ∧
    (runLoop ms cur reg).2.ollama_model_size_bytes = reg.ollama_model_size_bytes ∧
    (runLoop ms cur reg).2.ollama_model_modified_timestamp =
        reg.ollama_model_modified_timestamp ∧
    (runLoop ms cur reg).2.scrapes_success = reg.scrapes_success ∧
    (runLoop ms cur reg).2.scrapes_error = reg.scrapes_error ∧
    (runLoop ms cur reg).2.last_scrape_timestamp = reg.last_scrape_timestamp
  | [], cur, reg => by
      refine ⟨?_, ?_, ?_, ?_, ?_, ?_, ?_, ?_, ?_, ?_, ?_, ?_⟩ <;> simp [runLoop, setList]
  | m :: ms, cur, reg => by
      obtain ⟨s1, s2, s3, s4, s5, s6, s7, s8, s9, s10, s11⟩ := setRunningMetrics_spec reg m
      obtain ⟨j1, j2, j3, j4, j5, j6, j7, j8, j9, j10, j11, j12⟩ :=
        runLoop_spec ms (jsSetAdd cur (runningName m)) (setRunningMetrics reg m)
      by_cases hv : 0 < jsOrInt m.size_vram 0 <;>
        refine ⟨?_, ?_, ?_, ?_, ?_, ?_, ?_, ?_, ?_, ?_, ?_, ?_⟩ <;>
        simp [runLoop, j1, j2, j3, j4, j5, j6, j7, j8, j9, j10, j11, j12,
          s1, s2, s3, s4, s5, s6, s7, s8, s9, s10, s11, hv, setList, List.filter_cons]

/-- Field-by-field description of the clearing loop: the two running gauge
families lose every name of the previous snapshot, nothing else changes. -/
theorem clearRunning_spec : ∀ (ks : List String) (reg : Registry),
    (clearRunning ks reg).ollama_running_models =
        removeList reg.ollama_running_models ks ∧
    (clearRunning ks reg).ollama_model_memory_bytes =
        removeList reg.ollama_model_memory_bytes ks ∧
    (clearRunning ks reg).ollama_up = reg.ollama_up ∧
    (clearRunning ks reg).ollama_version_info = reg.ollama_version_info ∧
    (clearRunning ks reg).ollama_models_total = reg.ollama_models_total ∧
    (clearRunning ks reg).ollama_model_info = reg.ollama_model_info ∧
    (clearRunning ks reg).ollama_model_size_bytes = reg.ollama_model_size_bytes ∧
    (clearRunning ks reg).ollama_model_modified_timestamp =
        reg.ollama_model_modified_timestamp ∧
    (clearRunning ks reg).scrapes_success = reg.scrapes_success ∧
    (clearRunning ks reg).scrapes_error = reg.scrapes_error ∧
    (clearRunning ks reg).last_scrape_timestamp = reg.last_scrape_timestamp
  | [], reg => by
      refine ⟨?_, ?_, ?_, ?_, ?_, ?_, ?_, ?_, ?_, ?_, ?_⟩ <;> simp [clearRunning, removeList]
  | k :: ks, reg => by
      obtain ⟨c1, c2, c3, c4, c5, c6, c7, c8, c9, c10, c11⟩ :=
        clearRunning_spec ks
          { reg with
            ollama_running_models := removeSeries reg.ollama_running_models k,
            ollama_model_memory_bytes := removeSeries reg.ollama_model_memory_bytes k }
      refine ⟨?_, ?_, ?_, ?_, ?_, ?_, ?_, ?_, ?_, ?_, ?_⟩ <;>
        simp [clearRunning, c1, c2, c3, c4, c5, c6, c7, c8, c9, c10, c11, removeList]

/-- When no previously observed model name is stale, `processModels` succeeds
with the snapshot replaced and the per-model loop run over a registry whose
models-total gauge holds the new count. -/
theorem processModels_ok_eq (models : List OllamaModel) (st : ExporterState) (reg : Registry)
    (h : ∀ k ∈ st.lastModels.map Prod.fst, k ∈ jsSetOf (models.map modelName)) :
    processModels models st reg =
      Except.ok
        ({ st with lastModels := jsMapOf (models.map (fun m => (modelName m, m))) },
          modelLoop models
            { reg with ollama_models_total := JsNum.num (models.length : ℚ) }) := by
  rw [processModels, removeStale_ok_of_subset _ _ _ h]

/-- A failing `processModels` is exactly a failing removal loop. -/
theorem processModels_error_inv (models : List OllamaModel) (st : ExporterState)
    (reg r : Registry) (h : processModels models st reg = Except.error r) :
    removeStale (jsSetOf (models.map modelName)) (st.lastModels.map Prod.fst) reg =
      Except.error r := by
  rw [processModels] at h
  cases hr : removeStale (jsSetOf (models.map modelName)) (st.lastModels.map Prod.fst) reg with
  | ok r2 => rw [hr] at h; exact absurd h (by simp)
  | error r2 => rw [hr] at h; simpa using h

/-- A successful `processModels` means no previously observed name was
stale. -/
theorem processModels_ok_inv (models : List OllamaModel) (st : ExporterState)
    (reg : Registry) (pr : ExporterState × Registry)
    (h : processModels models st reg = Except.ok pr) :
    ∀ k ∈ st.lastModels.map Prod.fst, k ∈ jsSetOf (models.map modelName) := by
  rw [processModels] at h
  cases hr : removeStale (jsSetOf (models.map modelName)) (st.lastModels.map Prod.fst) reg with
  | ok r2 =>
      exact (removeStale_ok_imp _ _ _ _ hr).2
  | error r2 => rw [hr] at h; exact absurd h (by simp)

/-- A no-stale inventory update in full: result state, registry and flag. -/
theorem updateModelMetrics_ok_eq (data : OllamaTagsResponse) (st : ExporterState)
    (reg : Registry)
    (h : ∀ k ∈ st.lastModels.map Prod.fst,
        k ∈ jsSetOf ((data.models.getD []).map modelName)) :
    updateModelMetrics (some data) st reg =
      ({ st with
          lastModels := jsMapOf ((data.models.getD []).map (fun m => (modelName m, m))) },
        modelLoop (data.models.getD [])
          { reg with
            ollama_models_total := JsNum.num (((data.models.getD []).length : ℚ)) },
        true) := by
  rw [updateModelMetrics, processModels_ok_eq _ _ _ h]

/-- A failing inventory update leaves the snapshot untouched, reports
failure, and changes at most the size and modified-timestamp families. -/
theorem updateModelMetrics_err_eq (data : OllamaTagsResponse) (st : ExporterState)
    (reg : Registry)
    (h : ¬ ∀ k ∈ st.lastModels.map Prod.fst,
        k ∈ jsSetOf ((data.models.getD []).map modelName)) :
    ∃ r : Registry, updateModelMetrics (some data) st reg = (st, r, false) ∧
      r.ollama_up = reg.ollama_up ∧
      r.ollama_version_info = reg.ollama_version_info ∧
      r.ollama_models_total = reg.ollama_models_total ∧
      r.ollama_model_info = reg.ollama_model_info ∧
      r.ollama_running_models = reg.ollama_running_models ∧
      r.ollama_model_memory_bytes = reg.ollama_model_memory_bytes ∧
      r.scrapes_success = reg.scrapes_success ∧
      r.scrapes_error = reg.scrapes_error ∧
      r.last_scrape_timestamp = reg.last_scrape_timestamp := by
  cases hp : processModels (data.models.getD []) st reg with
  | ok pr => exact absurd (processModels_ok_inv _ _ _ _ hp) h
  | error r =>
      refine ⟨r, ?_, ?_⟩
      · rw [updateModelMetrics, hp]
      · exact removeStale_error_imp _ _ _ _ (processModels_error_inv _ _ _ _ hp)

/-- `updateModelMetrics` never touches the non-inventory registry fields. -/
theorem updateModelMetrics_untouched (tags : Option OllamaTagsResponse) (st : ExporterState)
    (reg : Registry) :
    (updateModelMetrics tags st reg).2.1.ollama_up = reg.ollama_up ∧
    (updateModelMetrics tags st reg).2.1.ollama_version_info = reg.ollama_version_info ∧
    (updateModelMetrics tags st reg).2.1.ollama_running_models = reg.ollama_running_models ∧
    (updateModelMetrics tags st reg).2.1.ollama_model_memory_bytes =
        reg.ollama_model_memory_bytes ∧
    (updateModelMetrics tags st reg).2.1.scrapes_success = reg.scrapes_success ∧
    (updateModelMetrics tags st reg).2.1.scrapes_error = reg.scrapes_error ∧
    (updateModelMetrics tags st reg).2.1.last_scrape_timestamp = reg.last_scrape_timestamp := by
  cases tags with
  | none => exact ⟨rfl, rfl, rfl, rfl, rfl, rfl, rfl⟩
  | some data =>
      by_cases h : ∀ k ∈ st.lastModels.map Prod.fst,
          k ∈ jsSetOf ((data.models.getD []).map modelName)
      · rw [updateModelMetrics_ok_eq _ _ _ h]
        obtain ⟨m1, m2, m3, m4, m5, m6, m7, m8, m9, m10, m11⟩ :=
          modelLoop_spec (data.models.getD [])
            { reg with
              ollama_models_total := JsNum.num (((data.models.getD []).length : ℚ)) }
        exact ⟨m4, m5, m7, m8, m9, m10, m11⟩
      · obtain ⟨r, heq, h1, h2, h3, h4, h5, h6, h7, h8, h9⟩ :=
          updateModelMetrics_err_eq data st reg h
        rw [heq]
        exact ⟨h1, h2, h5, h6, h7, h8, h9⟩

/-- `updateRunningMetrics` never touches the non-running registry fields. -/
theorem updateRunningMetrics_untouched (ps : Option OllamaPsResponse) (st : ExporterState)
    (reg : Registry) :
    (updateRunningMetrics ps st reg).2.1.ollama_up = reg.ollama_up ∧
    (updateRunningMetrics ps st reg).2.1.ollama_version_info = reg.ollama_version_info ∧
    (updateRunningMetrics ps st reg).2.1.ollama_models_total = reg.ollama_models_total ∧
    (updateRunningMetrics ps st reg).2.1.ollama_model_info = reg.ollama_model_info ∧
    (updateRunningMetrics ps st reg).2.1.ollama_model_size_bytes =
        reg.ollama_model_size_bytes ∧
    (updateRunningMetrics ps st reg).2.1.ollama_model_modified_timestamp =
        reg.ollama_model_modified_timestamp ∧
    (updateRunningMetrics ps st reg).2.1.scrapes_success = reg.scrapes_success ∧
    (updateRunningMetrics ps st reg).2.1.scrapes_error = reg.scrapes_error ∧
    (updateRunningMetrics ps st reg).2.1.last_scrape_timestamp = reg.last_scrape_timestamp := by
  cases ps with
  | none => exact ⟨rfl, rfl, rfl, rfl, rfl, rfl, rfl, rfl, rfl⟩
  | some data =>
      obtain ⟨c1, c2, c3, c4, c5, c6, c7, c8, c9, c10, c11⟩ :=
        clearRunning_spec st.lastRunningModels reg
      obtain ⟨j1, j2, j3, j4, j5, j6, j7, j8, j9, j10, j11, j12⟩ :=
        runLoop_spec (data.models.getD []) [] (clearRunning st.lastRunningModels reg)
      rw [updateRunningMetrics]
      cases hrl : runLoop (data.models.getD []) [] (clearRunning st.lastRunningModels reg) with
      | mk cur reg2 =>
          rw [hrl] at j1 j2 j3 j4 j5 j6 j7 j8 j9 j10 j11 j12
          exact ⟨j4.trans c3, j5.trans c4, j6.trans c5, j7.trans c6, j8.trans c7,
            j9.trans c8, j10.trans c9, j11.trans c10, j12.trans c11⟩

/-- The inventory update reports success exactly when the upstream call
succeeded and no previously observed name is stale. -/
theorem updateModelMetrics_ok_iff (data : OllamaTagsResponse) (st : ExporterState)
    (reg : Registry) :
    (updateModelMetrics (some data) st reg).2.2 = true ↔
      ∀ k ∈ st.lastModels.map Prod.fst, k ∈ jsSetOf ((data.models.getD []).map modelName) := by
  by_cases h : ∀ k ∈ st.lastModels.map Prod.fst,
      k ∈ jsSetOf ((data.models.getD []).map modelName)
  · rw [updateModelMetrics_ok_eq _ _ _ h]
    simpa using h
  · obtain ⟨r, heq, -⟩ := updateModelMetrics_err_eq data st reg h
    rw [heq]
    simpa using h

/-- The running update reports success whenever the upstream call
succeeded. -/
theorem updateRunningMetrics_some_ok (data : OllamaPsResponse) (st : ExporterState)
    (reg : Registry) : (updateRunningMetrics (some data) st reg).2.2 = true := by
  rw [updateRunningMetrics]

/-- A cycle whose health probe fails in full: `ollama_up` drops to 0, the
error counter increments, nothing else is touched, and only the version
endpoint was called. -/
theorem updateMetrics_none_eq (ut : Option OllamaTagsResponse) (ups : Option OllamaPsResponse)
    (st : ExporterState) (reg : Registry) (now : ℚ) :
    updateMetrics ⟨none, ut, ups⟩ st reg now =
      { state := st,
        reg := { reg with ollama_up := JsNum.num 0, scrapes_error := reg.scrapes_error + 1 },
        success := false,
        calls := ["version"] } := by
  simp [updateMetrics, checkOllamaHealth]

/-- A cycle whose health probe succeeds in full, given the results of the two
sub-updates. -/
theorem updateMetrics_healthy_eq (v : OllamaVersionResponse) (ut : Option OllamaTagsResponse)
    (ups : Option OllamaPsResponse) (st : ExporterState) (reg : Registry) (now : ℚ)
    (st2 : ExporterState) (reg2 : Registry) (invOk : Bool)
    (st3 : ExporterState) (reg3 : Registry) (runOk : Bool)
    (hA : updateModelMetrics ut st
        { reg with
          ollama_version_info :=
            (setSeries reg.ollama_version_info (jsOrStr v.version "unknown") (JsNum.num 1)),
          ollama_up := JsNum.num 1 } = (st2, reg2, invOk))
    (hB : updateRunningMetrics ups st2 reg2 = (st3, reg3, runOk)) :
    updateMetrics ⟨some v, ut, ups⟩ st reg now =
      { state := st3,
        reg :=
          (if invOk && runOk then
            { reg3 with
              last_scrape_timestamp := JsNum.num now,
              scrapes_success := reg3.scrapes_success + 1 }
           else { reg3 with scrapes_error := reg3.scrapes_error + 1 }),
        success := invOk && runOk,
        calls := ["version", "tags", "ps"] } := by
  cases invOk <;> cases runOk <;>
    simp [updateMetrics, checkOllamaHealth, hA, hB]

/-- C4: every scrape cycle increments the scrapes-total counter exactly once:
the success label exactly when the health probe, the inventory update and the
running update all succeeded, the error label otherwise; the other label is
untouched, so no cycle increments both or more than once. -/
theorem scrapesTotal_one_increment_per_cycle (u : Upstream) (st : ExporterState)
    (reg : Registry) (now : ℚ) :
    (updateMetrics u st reg now).success =
        ((cycleSubOutcomes u st reg).1 && ((cycleSubOutcomes u st reg).2.1 &&
          (cycleSubOutcomes u st reg).2.2)) ∧
    (updateMetrics u st reg now).reg.scrapes_success =
        reg.scrapes_success + (if (updateMetrics u st reg now).success then 1 else 0) ∧
    (updateMetrics u st reg now).reg.scrapes_error =
        reg.scrapes_error + (if (updateMetrics u st reg now).success then 0 else 1) := by
  obtain ⟨uv, ut, ups⟩ := u
  cases uv with
  | none =>
      rw [updateMetrics_none_eq]
      simp [cycleSubOutcomes, checkOllamaHealth]
  | some v =>
      rcases hA : updateModelMetrics ut st
          { reg with
            ollama_version_info :=
              (setSeries reg.ollama_version_info (jsOrStr v.version "unknown") (JsNum.num 1)),
            ollama_up := JsNum.num 1 } with ⟨st2, reg2, invOk⟩
      rcases hB : updateRunningMetrics ups st2 reg2 with ⟨st3, reg3, runOk⟩
      rw [updateMetrics_healthy_eq v ut ups st reg now st2 reg2 invOk st3 reg3 runOk hA hB]
      obtain ⟨-, -, -, -, hm5, hm6, -⟩ := updateModelMetrics_untouched ut st
          { reg with
            ollama_version_info :=
              (setSeries reg.ollama_version_info (jsOrStr v.version "unknown") (JsNum.num 1)),
            ollama_up := JsNum.num 1 }
      rw [hA] at hm5 hm6
      simp only [] at hm5 hm6
      obtain ⟨-, -, -, -, -, -, hr7, hr8, -⟩ := updateRunningMetrics_untouched ups st2 reg2
      rw [hB] at hr7 hr8
      simp only [] at hr7 hr8
      cases invOk <;> cases runOk <;>
        simp [cycleSubOutcomes, checkOllamaHealth, hA, hB, hm5, hm6, hr7, hr8]

/-- C6: the last-scrape timestamp becomes `now` exactly on a fully successful
cycle and keeps its prior value on every failing cycle. -/
theorem lastScrape_only_on_success (u : Upstream) (st : ExporterState) (reg : Registry)
    (now : ℚ) :
    (updateMetrics u st reg now).reg.last_scrape_timestamp =
      (if (updateMetrics u st reg now).success then JsNum.num now
       else reg.last_scrape_timestamp) := by
  obtain ⟨uv, ut, ups⟩ := u
  cases uv with
  | none =>
      rw [updateMetrics_none_eq]
      simp
  | some v =>
      rcases hA : updateModelMetrics ut st
          { reg with
            ollama_version_info :=
              (setSeries reg.ollama_version_info (jsOrStr v.version "unknown") (JsNum.num 1)),
            ollama_up := JsNum.num 1 } with ⟨st2, reg2, invOk⟩
      rcases hB : updateRunningMetrics ups st2 reg2 with ⟨st3, reg3, runOk⟩
      rw [updateMetrics_healthy_eq v ut ups st reg now st2 reg2 invOk st3 reg3 runOk hA hB]
      obtain ⟨-, -, -, -, -, -, hm7⟩ := updateModelMetrics_untouched ut st
          { reg with
            ollama_version_info :=
              (setSeries reg.ollama_version_info (jsOrStr v.version "unknown") (JsNum.num 1)),
            ollama_up := JsNum.num 1 }
      rw [hA] at hm7
      simp only [] at hm7
      obtain ⟨-, -, -, -, -, -, -, -, hr9⟩ := updateRunningMetrics_untouched ups st2 reg2
      rw [hB] at hr9
      simp only [] at hr9
      cases invOk <;> cases runOk <;> simp [hm7, hr9]

/-- C7: when the health probe fails, the cycle only ever called the version
endpoint, drops the server-up gauge to 0, counts as an error, and leaves the
success counter alone. -/
theorem health_failure_short_circuits (ut : Option OllamaTagsResponse)
    (ups : Option OllamaPsResponse) (st : ExporterState) (reg : Registry) (now : ℚ) :
    (updateMetrics ⟨none, ut, ups⟩ st reg now).calls = ["version"] ∧
    "tags" ∉ (updateMetrics ⟨none, ut, ups⟩ st reg now).calls ∧
    "ps" ∉ (updateMetrics ⟨none, ut, ups⟩ st reg now).calls ∧
    (updateMetrics ⟨none, ut, ups⟩ st reg now).reg.ollama_up = JsNum.num 0 ∧
    (updateMetrics ⟨none, ut, ups⟩ st reg now).success = false ∧
    (updateMetrics ⟨none, ut, ups⟩ st reg now).reg.scrapes_error = reg.scrapes_error + 1 ∧
    (updateMetrics ⟨none, ut, ups⟩ st reg now).reg.scrapes_success = reg.scrapes_success := by
  rw [updateMetrics_none_eq]
  refine ⟨rfl, ?_, ?_, rfl, rfl, rfl, rfl⟩ <;> simp

/-- A lookup misses exactly when the key is absent. -/
theorem lookupSeries_eq_none_iff {α : Type} [DecidableEq α] {s : Series α} {a : α} :
    lookupSeries s a = none ↔ a ∉ keysOf s := by
  induction s with
  | nil => simp [lookupSeries, keysOf]
  | cons p t ih =>
      by_cases hp : p.1 = a
      · simp [lookupSeries, hp, keysOf]
      · simp only [lookupSeries, hp, if_false, ih, keysOf, List.map_cons, List.mem_cons]
        constructor
        · intro h hmem
          rcases hmem with h1 | h2
          · exact hp h1.symm
          · exact h (by simpa [keysOf] using h2)
        · intro h
          intro hmem
          exact h (Or.inr (by simpa [keysOf] using hmem))

/-- An entry of `setSeries s k v` is an entry of `s` or the written pair. -/
theorem mem_setSeries_imp {α : Type} [DecidableEq α] {s : Series α} {k : α} {v : JsNum} :
    ∀ p ∈ setSeries s k v, p ∈ s ∨ p = (k, v) := by
  induction s with
  | nil => simp [setSeries]
  | cons q t ih =>
      intro p hp
      by_cases hq : q.1 = k
      · rw [setSeries, if_pos hq] at hp
        rcases (by simpa using hp : p = (k, v) ∨ p ∈ t) with h | h
        · exact Or.inr h
        · exact Or.inl (by simp [h])
      · rw [setSeries, if_neg hq] at hp
        rcases (by simpa using hp : p = q ∨ p ∈ setSeries t k v) with h | h
        · exact Or.inl (by simp [h])
        · rcases ih p h with h2 | h2
          · exact Or.inl (by simp [h2])
          · exact Or.inr h2

/-- `setList` preserves a constant value shared by the base series and the
assignment list. -/
theorem setList_values {α : Type} [DecidableEq α] (c : JsNum) :
    ∀ (l : List (α × JsNum)) (s : Series α), (∀ p ∈ s, p.2 = c) → (∀ q ∈ l, q.2 = c) →
      ∀ p ∈ setList s l, p.2 = c
  | [], s, hs, _, p, hp => hs p hp
  | (k, v) :: l, s, hs, hl, p, hp => by
      refine setList_values c l (setSeries s k v) ?_ (fun q hq => hl q (by simp [hq])) p hp
      intro q hq
      rcases mem_setSeries_imp q hq with h | h
      · exact hs q h
      · rw [h]
        exact hl (k, v) (by simp)

/-- The key list of a `setList` over string keys is a JavaScript set fold. -/
theorem keysOf_setList_jsSet :
    ∀ (l : List (String × JsNum)) (s : Series String),
      keysOf (setList s l) = (l.map Prod.fst).foldl jsSetAdd (keysOf s)
  | [], s => rfl
  | (k, v) :: l, s => by
      rw [setList, keysOf_setList_jsSet l, List.map_cons, List.foldl_cons]
      congr 1
      rw [keysOf_setSeries]
      rfl

/-- C5: after a successful inventory update the models-total gauge equals the
length of the fetched list; a failed fetch or a failed processing step leaves
both the gauge and the last-observed snapshot untouched. -/
theorem modelsTotal_tracks_successful_inventory :
    (∀ (st : ExporterState) (reg : Registry),
        updateModelMetrics none st reg = (st, reg, false)) ∧
    (∀ (data : OllamaTagsResponse) (st : ExporterState) (reg : Registry),
        ((updateModelMetrics (some data) st reg).2.2 = true →
            (updateModelMetrics (some data) st reg).2.1.ollama_models_total =
              JsNum.num (((data.models.getD []).length : ℚ))) ∧
        ((updateModelMetrics (some data) st reg).2.2 = false →
            (updateModelMetrics (some data) st reg).1 = st ∧
            (updateModelMetrics (some data) st reg).2.1.ollama_models_total =
              reg.ollama_models_total)) := by
  refine ⟨fun st reg => rfl, fun data st reg => ?_⟩
  by_cases h : ∀ k ∈ st.lastModels.map Prod.fst,
      k ∈ jsSetOf ((data.models.getD []).map modelName)
  · rw [updateModelMetrics_ok_eq _ _ _ h]
    obtain ⟨-, -, -, -, -, m6, -⟩ :=
      modelLoop_spec (data.models.getD [])
        { reg with ollama_models_total := JsNum.num (((data.models.getD []).length : ℚ)) }
    constructor
    · intro _
      exact m6
    · intro hfalse
      exact absurd hfalse (by simp)
  · obtain ⟨r, heq, -, -, h3, -⟩ := updateModelMetrics_err_eq data st reg h
    rw [heq]
    constructor
    · intro htrue
      exact absurd htrue (by simp)
    · intro _
      exact ⟨rfl, h3⟩

/-- C5 witness: a concrete successful update sets the gauge to the list
length, and a concrete failed fetch changes nothing. -/
theorem modelsTotal_tracks_successful_inventory_witness :
    updateModelMetrics none ExporterState.init Registry.init =
        (ExporterState.init, Registry.init, false) ∧
    (updateModelMetrics
        (some { models := some [{ name := some "A", size := some 5 }] })
        ExporterState.init Registry.init).2.1.ollama_models_total = JsNum.num 1 :=
  ⟨modelsTotal_tracks_successful_inventory.1 ExporterState.init Registry.init,
    (modelsTotal_tracks_successful_inventory.2
      { models := some [{ name := some "A", size := some 5 }] }
      ExporterState.init Registry.init).1 (by decide)⟩

/-- C2, evaluated at the failing input: a model whose `modified_at` does not
parse as a timestamp still has its modified-timestamp gauge written — with
value `NaN`, because `new Date(bad).getTime()` is `NaN` rather than a thrown
error — and the cycle still succeeds; the metric is not skipped as the
specification requires. -/
theorem modifiedTimestamp_set_to_nan_on_unparseable :
    lookupSeries
        (updateModelMetrics
          (some { models := some [{ name := some "m", size := some 1,
                                    modified_at := some "not-a-date" }] })
          ExporterState.init Registry.init).2.1.ollama_model_modified_timestamp "m" =
      some JsNum.nan ∧
    (updateModelMetrics
        (some { models := some [{ name := some "m", size := some 1,
                                  modified_at := some "not-a-date" }] })
        ExporterState.init Registry.init).2.2 = true := by
  decide

/-- C1, evaluated at the failing input: model `A` is in the first inventory
and gone from the second; the second inventory update fails (the one-value
`remove` on the six-label info gauge throws), the stale `model_info` series
labelled `A` stays in the registry, and only the size and modified-timestamp
series of `A` were removed before the throw. -/
theorem staleModelInfo_leaks_after_removal :
    (updateMetrics
        ⟨some { version := some "0" },
          some { models := some [{ name := some "A", size := some 5 }] },
          some { models := some [] }⟩ ExporterState.init Registry.init 1).success = true ∧
    (updateMetrics
        ⟨some { version := some "0" },
          some { models := some [{ name := some "B", size := some 7 }] },
          some { models := some [] }⟩
        (updateMetrics
          ⟨some { version := some "0" },
            some { models := some [{ name := some "A", size := some 5 }] },
            some { models := some [] }⟩ ExporterState.init Registry.init 1).state
        (updateMetrics
          ⟨some { version := some "0" },
            some { models := some [{ name := some "A", size := some 5 }] },
            some { models := some [] }⟩ ExporterState.init Registry.init 1).reg
        2).success = false ∧
    (∃ p ∈ (updateMetrics
        ⟨some { version := some "0" },
          some { models := some [{ name := some "B", size := some 7 }] },
          some { models := some [] }⟩
        (updateMetrics
          ⟨some { version := some "0" },
            some { models := some [{ name := some "A", size := some 5 }] },
            some { models := some [] }⟩ ExporterState.init Registry.init 1).state
        (updateMetrics
          ⟨some { version := some "0" },
            some { models := some [{ name := some "A", size := some 5 }] },
            some { models := some [] }⟩ ExporterState.init Registry.init 1).reg
        2).reg.ollama_model_info, p.1.model_name = "A") ∧
    lookupSeries
        (updateMetrics
          ⟨some { version := some "0" },
            some { models := some [{ name := some "B", size := some 7 }] },
            some { models := some [] }⟩
          (updateMetrics
            ⟨some { version := some "0" },
              some { models := some [{ name := some "A", size := some 5 }] },
              some { models := some [] }⟩ ExporterState.init Registry.init 1).state
          (updateMetrics
            ⟨some { version := some "0" },
              some { models := some [{ name := some "A", size := some 5 }] },
              some { models := some [] }⟩ ExporterState.init Registry.init 1).reg
          2).reg.ollama_model_size_bytes "A" = none := by
  decide

/-- C3: after a successful running-models update the names carrying a
`running_models` series are exactly the deduplicated names of the current
response (each with value 1), regardless of the previous snapshot, and every
previously running name that is not current has both its running and its
memory series gone. -/
theorem running_set_rebuilt_each_cycle (data : OllamaPsResponse) (st : ExporterState)
    (reg : Registry)
    (hsub : ∀ p ∈ reg.ollama_running_models, p.1 ∈ st.lastRunningModels) :
    keysOf (updateRunningMetrics (some data) st reg).2.1.ollama_running_models =
        jsSetOf ((data.models.getD []).map runningName) ∧
    (∀ p ∈ (updateRunningMetrics (some data) st reg).2.1.ollama_running_models,
        p.2 = JsNum.num 1) ∧
    (updateRunningMetrics (some data) st reg).2.2 = true ∧
    (∀ n ∈ st.lastRunningModels, n ∉ (data.models.getD []).map runningName →
        lookupSeries
            (updateRunningMetrics (some data) st reg).2.1.ollama_running_models n = none ∧
        lookupSeries
            (updateRunningMetrics (some data) st reg).2.1.ollama_model_memory_bytes n =
          none) := by
  obtain ⟨c1, c2, -⟩ := clearRunning_spec st.lastRunningModels reg
  obtain ⟨-, j2, j3, -⟩ :=
    runLoop_spec (data.models.getD []) [] (clearRunning st.lastRunningModels reg)
  have hreg : (updateRunningMetrics (some data) st reg).2.1 =
      (runLoop (data.models.getD []) [] (clearRunning st.lastRunningModels reg)).2 := by
    rw [updateRunningMetrics]
  have hclear : (clearRunning st.lastRunningModels reg).ollama_running_models = [] := by
    rw [c1]
    exact removeList_eq_nil_of_subset hsub
  have hrunning : (updateRunningMetrics (some data) st reg).2.1.ollama_running_models =
      setList []
        ((data.models.getD []).map (fun m => (runningName m, JsNum.num 1))) := by
    rw [hreg, j2, hclear]
  refine ⟨?_, ?_, updateRunningMetrics_some_ok data st reg, ?_⟩
  · rw [hrunning, keysOf_setList_jsSet, List.map_map]
    rfl
  · intro p hp
    rw [hrunning] at hp
    refine setList_values (JsNum.num 1) _ [] (by simp) ?_ p hp
    intro q hq
    rcases List.mem_map.mp hq with ⟨m, -, rfl⟩
    rfl
  · intro n hn hnot
    constructor
    · rw [lookupSeries_eq_none_iff, hrunning, keysOf_setList_jsSet, List.map_map]
      intro hmem
      have hmem2 : n ∈ jsSetOf ((data.models.getD []).map runningName) := by
        simpa [jsSetOf, keysOf, Function.comp] using hmem
      exact hnot (mem_jsSetOf.mp hmem2)
    · rw [lookupSeries_eq_none_iff, hreg, j3]
      intro hmem
      rcases mem_keysOf_setList.mp hmem with hbase | hnew
      · rw [c2] at hbase
        exact (mem_keysOf_removeList.mp hbase).2 hn
      · rcases List.mem_map.mp hnew with ⟨q, hq, rfl⟩
        rcases List.mem_map.mp hq with ⟨m, hm, rfl⟩
        exact hnot (List.mem_map_of_mem runningName (List.mem_of_mem_filter hm))

/-- C3 witness: a concrete cycle where the previous snapshot had `A`, the new
response has only `B`: `A` disappears, `B` carries 1. -/
theorem running_set_rebuilt_each_cycle_witness :
    keysOf (updateRunningMetrics
        (some { models := some [{ name := some "B", size_vram := some 4 }] })
        { lastModels := [], lastRunningModels := ["A"] }
        { Registry.init with
          ollama_running_models := [("A", JsNum.num 1)],
          ollama_model_memory_bytes := [("A", JsNum.num 3)] }).2.1.ollama_running_models =
      ["B"] ∧
    lookupSeries (updateRunningMetrics
        (some { models := some [{ name := some "B", size_vram := some 4 }] })
        { lastModels := [], lastRunningModels := ["A"] }
        { Registry.init with
          ollama_running_models := [("A", JsNum.num 1)],
          ollama_model_memory_bytes := [("A", JsNum.num 3)] }).2.1.ollama_running_models
      "A" = none := by
  have h := running_set_rebuilt_each_cycle
    { models := some [{ name := some "B", size_vram := some 4 }] }
    { lastModels := [], lastRunningModels := ["A"] }
    { Registry.init with
      ollama_running_models := [("A", JsNum.num 1)],
      ollama_model_memory_bytes := [("A", JsNum.num 3)] }
    (by decide)
  exact ⟨h.1, (h.2.2.2 "A" (by decide) (by decide)).1⟩

/-- C8: for any upstream API call, a transport failure, a non-2xx response,
and an elapsed timeout each collapse to the same `none` Failure signal at the
client boundary; the embedding is total, so no exception escapes. -/
theorem apiRequest_failure_collapse (T : Type) (apiTimeoutMs : ℚ) :
    (∀ w : RequestWorld,
        OllamaExporter.apiRequest (T := T) apiTimeoutMs ServerBehavior.noResponse w = none) ∧
    (∀ (w : RequestWorld) (status : Nat) (statusText : String) (json : Option T),
        OllamaExporter.apiRequest apiTimeoutMs
          (ServerBehavior.reply false status statusText json) w = none) ∧
    (apiTimeoutMs ≠ 0 →
      ∀ (server : ServerBehavior T) (ca : Bool),
        OllamaExporter.apiRequest apiTimeoutMs server
          { timeoutElapses := true, callerAborted := ca } = none) := by
  refine ⟨?_, ?_, ?_⟩
  · intro w
    by_cases hc : w.timeoutElapses <;>
      simp [OllamaExporter.apiRequest, FetchHttpClient.request, buildFetchOptions, hc]
  · intro w status statusText json
    by_cases hc : w.timeoutElapses <;>
    by_cases ht : timerScheduled
        { method := some "GET",
          headers := some [("Content-Type", "application/json")],
          body := none,
          timeout := some apiTimeoutMs,
          signal := none } <;>
      simp [OllamaExporter.apiRequest, FetchHttpClient.request, buildFetchOptions, hc, ht]
  · intro ht server ca
    simp [OllamaExporter.apiRequest, FetchHttpClient.request, buildFetchOptions,
      timerScheduled, ht]

/-- C8 witness: with a 30000 ms timeout, all three failure kinds produce
`none` for a `Nat` payload. -/
theorem apiRequest_failure_collapse_witness :
    OllamaExporter.apiRequest (T := Nat) 30000 ServerBehavior.noResponse
        { timeoutElapses := false, callerAborted := false } = none ∧
    OllamaExporter.apiRequest (T := Nat) 30000
        (ServerBehavior.reply false 500 "Internal Server Error" (some 3))
        { timeoutElapses := false, callerAborted := false } = none ∧
    OllamaExporter.apiRequest (T := Nat) 30000
        (ServerBehavior.reply true 200 "OK" (some 3))
        { timeoutElapses := true, callerAborted := false } = none := by
  have h := apiRequest_failure_collapse Nat 30000
  exact ⟨h.1 _, h.2.1 _ 500 "Internal Server Error" (some 3),
    h.2.2 (by norm_num) (ServerBehavior.reply true 200 "OK" (some 3)) false⟩

/-- C10: when the caller supplies an `AbortSignal`, `fetch` receives that
signal instead of the internal timeout controller signal, so an elapsed
timeout no longer aborts the request; the timeout abort is effective only
without a caller signal. -/
theorem callerSignal_overrides_timeout (T : Type) (o : HttpRequestOptions)
    (s : AbortSignalRef) (h : o.signal = some s) :
    (buildFetchOptions o).signal = UsedSignal.caller s ∧
    (∀ (server : ServerBehavior T) (ca : Bool),
        FetchHttpClient.request server { timeoutElapses := true, callerAborted := ca } o =
          FetchHttpClient.request server { timeoutElapses := false, callerAborted := ca } o) ∧
    (∀ (o2 : HttpRequestOptions) (server : ServerBehavior T),
        o2.signal = none → timerScheduled o2 = true →
        ∀ ca : Bool,
          FetchHttpClient.request server { timeoutElapses := true, callerAborted := ca } o2 =
            none) := by
  have hsig : (buildFetchOptions o).signal = UsedSignal.caller s := by
    simp [buildFetchOptions, h]
  refine ⟨hsig, ?_, ?_⟩
  · intro server ca
    simp [FetchHttpClient.request, hsig]
  · intro o2 server h2 ht ca
    have hsig2 : (buildFetchOptions o2).signal = UsedSignal.internalController := by
      simp [buildFetchOptions, h2]
    simp [FetchHttpClient.request, hsig2, ht]

/-- C10 witness: a concrete request with a caller signal ignores the elapsed
timeout and succeeds; the same request without a caller signal is aborted. -/
theorem callerSignal_overrides_timeout_witness :
    FetchHttpClient.request (ServerBehavior.reply true 200 "OK" (some 7))
        { timeoutElapses := true, callerAborted := false }
        { timeout := some 5000, signal := some { id := 1 } } =
      some { ok := true, status := 200, statusText := "OK", json := (some 7 : Option Nat) } ∧
    FetchHttpClient.request (ServerBehavior.reply true 200 "OK" (some 7 : Option Nat))
        { timeoutElapses := true, callerAborted := false }
        { timeout := some 5000 } = none := by
  have h := callerSignal_overrides_timeout Nat
    { timeout := some 5000, signal := some { id := 1 } } { id := 1 } rfl
  constructor
  · rw [h.2.1 (ServerBehavior.reply true 200 "OK" (some 7)) false]
    decide
  · exact h.2.2 { timeout := some 5000 } (ServerBehavior.reply true 200 "OK" (some 7)) rfl
      (by decide) false

/-- The registry with the last-scrape timestamp neutralised — the comparison
the specification asks for (the scrape-duration histogram is not modelled,
matching its exclusion). -/
def Registry.stripTimestamp (r : Registry) : Registry :=
  { r with last_scrape_timestamp := JsNum.num 0 }

/-- The registry with the last-scrape timestamp and both scrapes-total
counters neutralised. -/
def Registry.stripVolatile (r : Registry) : Registry :=
  { r with
    last_scrape_timestamp := JsNum.num 0,
    scrapes_success := 0,
    scrapes_error := 0 }

/-- Writing the same key/value twice is the same as writing it once. -/
theorem setSeries_setSeries_same {α : Type} [DecidableEq α] (s : Series α) (k : α)
    (v : JsNum) : setSeries (setSeries s k v) k v = setSeries s k v := by
  induction s with
  | nil => simp [setSeries]
  | cons q t ih =>
      by_cases hq : q.1 = k
      · simp [setSeries, hq]
      · simp [setSeries, hq, ih]

/-- A successful running update in full: snapshot replaced by the loop
accumulator, registry replaced by the loop registry. -/
theorem updateRunningMetrics_some_eq (data : OllamaPsResponse) (st : ExporterState)
    (reg : Registry) :
    updateRunningMetrics (some data) st reg =
      ({ st with lastRunningModels :=
          (runLoop (data.models.getD []) [] (clearRunning st.lastRunningModels reg)).1 },
        (runLoop (data.models.getD []) [] (clearRunning st.lastRunningModels reg)).2,
        true) := by
  rw [updateRunningMetrics]

/-- C9 counterexample: two identical fully successful cycles do not serialize
identically once only the duration histogram and the timestamp gauges are set
aside — the scrapes-total success counter differs (1 after the first cycle, 2
after the second). -/
theorem cycle_not_idempotent_modulo_timestamp_only :
    (updateMetrics
        ⟨some { version := some "0" },
          some { models := some [{ name := some "A", size := some 5 }] },
          some { models := some [{ name := some "A", size_vram := some 3 }] }⟩
        ExporterState.init Registry.init 1).success = true ∧
    (updateMetrics
        ⟨some { version := some "0" },
          some { models := some [{ name := some "A", size := some 5 }] },
          some { models := some [{ name := some "A", size_vram := some 3 }] }⟩
        (updateMetrics
          ⟨some { version := some "0" },
            some { models := some [{ name := some "A", size := some 5 }] },
            some { models := some [{ name := some "A", size_vram := some 3 }] }⟩
          ExporterState.init Registry.init 1).state
        (updateMetrics
          ⟨some { version := some "0" },
            some { models := some [{ name := some "A", size := some 5 }] },
            some { models := some [{ name := some "A", size_vram := some 3 }] }⟩
          ExporterState.init Registry.init 1).reg
        2).success = true ∧
    Registry.stripTimestamp
        (updateMetrics
          ⟨some { version := some "0" },
            some { models := some [{ name := some "A", size := some 5 }] },
            some { models := some [{ name := some "A", size_vram := some 3 }] }⟩
          (updateMetrics
            ⟨some { version := some "0" },
              some { models := some [{ name := some "A", size := some 5 }] },
              some { models := some [{ name := some "A", size_vram := some 3 }] }⟩
            ExporterState.init Registry.init 1).state
          (updateMetrics
            ⟨some { version := some "0" },
              some { models := some [{ name := some "A", size := some 5 }] },
              some { models := some [{ name := some "A", size_vram := some 3 }] }⟩
            ExporterState.init Registry.init 1).reg
          2).reg ≠
      Registry.stripTimestamp
        (updateMetrics
          ⟨some { version := some "0" },
            some { models := some [{ name := some "A", size := some 5 }] },
            some { models := some [{ name := some "A", size_vram := some 3 }] }⟩
          ExporterState.init Registry.init 1).reg := by
  decide

/-- A fully successful cycle in closed form: version info and up gauge set,
inventory snapshot and gauges rebuilt, running snapshot and gauges rebuilt,
timestamp set, success counter incremented. -/
theorem updateMetrics_full_success_eq (v : OllamaVersionResponse) (tags : OllamaTagsResponse)
    (ps : OllamaPsResponse) (st : ExporterState) (reg : Registry) (now : ℚ)
    (hno : ∀ k ∈ st.lastModels.map Prod.fst,
        k ∈ jsSetOf ((tags.models.getD []).map modelName)) :
    updateMetrics ⟨some v, some tags, some ps⟩ st reg now =
      { state :=
          { lastModels := jsMapOf ((tags.models.getD []).map (fun m => (modelName m, m))),
            lastRunningModels :=
              (runLoop (ps.models.getD []) []
                (clearRunning st.lastRunningModels
                  (modelLoop (tags.models.getD [])
                    { reg with
                      ollama_up := JsNum.num 1,
                      ollama_version_info :=
                        (setSeries reg.ollama_version_info (jsOrStr v.version "unknown")
                          (JsNum.num 1)),
                      ollama_models_total :=
                        JsNum.num (((tags.models.getD []).length : ℚ)) }))).1 },
        reg :=
          { (runLoop (ps.models.getD []) []
              (clearRunning st.lastRunningModels
                (modelLoop (tags.models.getD [])
                  { reg with
                    ollama_up := JsNum.num 1,
                    ollama_version_info :=
                      (setSeries reg.ollama_version_info (jsOrStr v.version "unknown")
                        (JsNum.num 1)),
                    ollama_models_total :=
                      JsNum.num (((tags.models.getD []).length : ℚ)) }))).2 with
            last_scrape_timestamp := JsNum.num now,
            scrapes_success :=
              (runLoop (ps.models.getD []) []
              (clearRunning st.lastRunningModels
                (modelLoop (tags.models.getD [])
                  { reg with
                    ollama_up := JsNum.num 1,
                    ollama_version_info :=
                      (setSeries reg.ollama_version_info (jsOrStr v.version "unknown")
                        (JsNum.num 1)),
                    ollama_models_total :=
                      JsNum.num (((tags.models.getD []).length : ℚ)) }))).2.scrapes_success
                + 1 },
        success := true,
        calls := ["version", "tags", "ps"] } := by
  have hA := updateModelMetrics_ok_eq tags st
    { reg with
      ollama_version_info :=
        (setSeries reg.ollama_version_info (jsOrStr v.version "unknown") (JsNum.num 1)),
      ollama_up := JsNum.num 1 } hno
  have hB := updateRunningMetrics_some_eq ps
    { st with lastModels := jsMapOf ((tags.models.getD []).map (fun m => (modelName m, m))) }
    (modelLoop (tags.models.getD [])
      { { reg with
          ollama_version_info :=
            (setSeries reg.ollama_version_info (jsOrStr v.version "unknown") (JsNum.num 1)),
          ollama_up := JsNum.num 1 } with
        ollama_models_total := JsNum.num (((tags.models.getD []).length : ℚ)) })
  rw [updateMetrics_healthy_eq v (some tags) (some ps) st reg now _ _ true _ _ true hA hB]
  simp

/-- The observable content of a fully successful cycle, component by
component, in terms of the pre-cycle state and registry. -/
theorem updateMetrics_success_fields (v : OllamaVersionResponse) (tags : OllamaTagsResponse)
    (ps : OllamaPsResponse) (st : ExporterState) (reg : Registry) (now : ℚ)
    (hno : ∀ k ∈ st.lastModels.map Prod.fst,
        k ∈ jsSetOf ((tags.models.getD []).map modelName)) :
    (updateMetrics ⟨some v, some tags, some ps⟩ st reg now).success = true ∧
    (updateMetrics ⟨some v, some tags, some ps⟩ st reg now).state.lastModels =
        jsMapOf ((tags.models.getD []).map (fun m => (modelName m, m))) ∧
    (updateMetrics ⟨some v, some tags, some ps⟩ st reg now).state.lastRunningModels =
        jsSetOf ((ps.models.getD []).map runningName) ∧
    (updateMetrics ⟨some v, some tags, some ps⟩ st reg now).reg.ollama_up = JsNum.num 1 ∧
    (updateMetrics ⟨some v, some tags, some ps⟩ st reg now).reg.ollama_version_info =
        setSeries reg.ollama_version_info (jsOrStr v.version "unknown") (JsNum.num 1) ∧
    (updateMetrics ⟨some v, some tags, some ps⟩ st reg now).reg.ollama_models_total =
        JsNum.num (((tags.models.getD []).length : ℚ)) ∧
    (updateMetrics ⟨some v, some tags, some ps⟩ st reg now).reg.ollama_model_info =
        setList reg.ollama_model_info
          ((tags.models.getD []).map (fun m => (infoKey m, JsNum.num 1))) ∧
    (updateMetrics ⟨some v, some tags, some ps⟩ st reg now).reg.ollama_model_size_bytes =
        setList reg.ollama_model_size_bytes
          ((tags.models.getD []).map
            (fun m => (jsOrStr m.name "unknown", JsNum.num (jsOrInt m.size 0)))) ∧
    (updateMetrics ⟨some v, some tags, some ps⟩ st reg
          now).reg.ollama_model_modified_timestamp =
        setList reg.ollama_model_modified_timestamp
          (((tags.models.getD []).filter (fun m => jsOrStr m.modified_at "" ≠ "")).map
            (fun m => (jsOrStr m.name "unknown", modifiedVal m))) ∧
    (updateMetrics ⟨some v, some tags, some ps⟩ st reg now).reg.ollama_running_models =
        setList (removeList reg.ollama_running_models st.lastRunningModels)
          ((ps.models.getD []).map (fun m => (runningName m, JsNum.num 1))) ∧
    (updateMetrics ⟨some v, some tags, some ps⟩ st reg now).reg.ollama_model_memory_bytes =
        setList (removeList reg.ollama_model_memory_bytes st.lastRunningModels)
          (((ps.models.getD []).filter (fun m => 0 < jsOrInt m.size_vram 0)).map
            (fun m => (runningName m, JsNum.num (jsOrInt m.size_vram 0)))) := by
  rw [updateMetrics_full_success_eq v tags ps st reg now hno]
  obtain ⟨m1, m2, m3, m4, m5, m6, m7, m8, m9, m10, m11⟩ :=
    modelLoop_spec (tags.models.getD [])
      { reg with
        ollama_up := JsNum.num 1,
        ollama_version_info :=
          (setSeries reg.ollama_version_info (jsOrStr v.version "unknown") (JsNum.num 1)),
        ollama_models_total := JsNum.num (((tags.models.getD []).length : ℚ)) }
  obtain ⟨c1, c2, c3, c4, c5, c6, c7, c8, -⟩ :=
    clearRunning_spec st.lastRunningModels
      (modelLoop (tags.models.getD [])
        { reg with
          ollama_up := JsNum.num 1,
          ollama_version_info :=
            (setSeries reg.ollama_version_info (jsOrStr v.version "unknown") (JsNum.num 1)),
          ollama_models_total := JsNum.num (((tags.models.getD []).length : ℚ)) })
  obtain ⟨j1, j2, j3, j4, j5, j6, j7, j8, j9, -⟩ :=
    runLoop_spec (ps.models.getD []) []
      (clearRunning st.lastRunningModels
        (modelLoop (tags.models.getD [])
          { reg with
            ollama_up := JsNum.num 1,
            ollama_version_info :=
              (setSeries reg.ollama_version_info (jsOrStr v.version "unknown") (JsNum.num 1)),
            ollama_models_total := JsNum.num (((tags.models.getD []).length : ℚ)) }))
  refine ⟨rfl, rfl, ?_, ?_, ?_, ?_, ?_, ?_, ?_, ?_, ?_⟩
  · exact j1
  · exact (j4.trans c3).trans m4
  · exact (j5.trans c4).trans (m5.trans rfl)
  · exact (j6.trans c5).trans (m6.trans rfl)
  · rw [j7, c6, m1]
  · rw [j8, c7, m2]
  · rw [j9, c8, m3]
  · rw [j2, c1, m7]
  · rw [j3, c2, m8]

/-- Registries with equal fields are equal. -/
theorem Registry.ext_fields {a b : Registry}
    (h1 : a.ollama_up = b.ollama_up)
    (h2 : a.ollama_version_info = b.ollama_version_info)
    (h3 : a.ollama_models_total = b.ollama_models_total)
    (h4 : a.ollama_model_info = b.ollama_model_info)
    (h5 : a.ollama_model_size_bytes = b.ollama_model_size_bytes)
    (h6 : a.ollama_model_modified_timestamp = b.ollama_model_modified_timestamp)
    (h7 : a.ollama_running_models = b.ollama_running_models)
    (h8 : a.ollama_model_memory_bytes = b.ollama_model_memory_bytes)
    (h9 : a.scrapes_success = b.scrapes_success)
    (h10 : a.scrapes_error = b.scrapes_error)
    (h11 : a.last_scrape_timestamp = b.last_scrape_timestamp) : a = b := by
  cases a
  cases b
  simp_all

/-- C9 (amended): with the scrapes-total counters excluded along with the
duration histogram and the timestamp gauge, two consecutive fully successful
cycles with identical upstream responses leave an identical registry, provided
the starting registry satisfies the reachable-state invariants (running and
memory series keys inside the running snapshot; distinct keys in the model
gauge families). -/
theorem cycle_idempotent_modulo_counters (v : OllamaVersionResponse)
    (tags : OllamaTagsResponse) (ps : OllamaPsResponse) (st0 : ExporterState)
    (reg0 : Registry) (now1 now2 : ℚ)
    (hrun : ∀ p ∈ reg0.ollama_running_models, p.1 ∈ st0.lastRunningModels)
    (hmem : ∀ p ∈ reg0.ollama_model_memory_bytes, p.1 ∈ st0.lastRunningModels)
    (hinfo : (keysOf reg0.ollama_model_info).Nodup)
    (hsize : (keysOf reg0.ollama_model_size_bytes).Nodup)
    (hmod : (keysOf reg0.ollama_model_modified_timestamp).Nodup)
    (h1 : (updateMetrics ⟨some v, some tags, some ps⟩ st0 reg0 now1).success = true) :
    (updateMetrics ⟨some v, some tags, some ps⟩
        (updateMetrics ⟨some v, some tags, some ps⟩ st0 reg0 now1).state
        (updateMetrics ⟨some v, some tags, some ps⟩ st0 reg0 now1).reg now2).success =
      true ∧
    Registry.stripVolatile
        (updateMetrics ⟨some v, some tags, some ps⟩
          (updateMetrics ⟨some v, some tags, some ps⟩ st0 reg0 now1).state
          (updateMetrics ⟨some v, some tags, some ps⟩ st0 reg0 now1).reg now2).reg =
      Registry.stripVolatile
        (updateMetrics ⟨some v, some tags, some ps⟩ st0 reg0 now1).reg := by
  by_cases hno : ∀ k ∈ st0.lastModels.map Prod.fst,
      k ∈ jsSetOf ((tags.models.getD []).map modelName)
  case neg =>
    obtain ⟨r, heq, -⟩ := updateModelMetrics_err_eq tags st0
      { reg0 with
        ollama_version_info :=
          (setSeries reg0.ollama_version_info (jsOrStr v.version "unknown") (JsNum.num 1)),
        ollama_up := JsNum.num 1 } hno
    rcases hB : updateRunningMetrics (some ps) st0 r with ⟨st3, reg3, runOk⟩
    rw [updateMetrics_healthy_eq v (some tags) (some ps) st0 reg0 now1 st0 r false st3 reg3
      runOk heq hB] at h1
    simp at h1
  case pos =>
    obtain ⟨a1, a2, a3, a4, a5, a6, a7, a8, a9, a10, a11⟩ :=
      updateMetrics_success_fields v tags ps st0 reg0 now1 hno
    have hno2 : ∀ k ∈ (updateMetrics ⟨some v, some tags, some ps⟩ st0 reg0
        now1).state.lastModels.map Prod.fst,
        k ∈ jsSetOf ((tags.models.getD []).map modelName) := by
      rw [a2]
      intro k hk
      rw [mem_jsSetOf]
      have := mem_fst_jsMapOf.mp hk
      simpa [Function.comp] using this
    obtain ⟨b1, b2, b3, b4, b5, b6, b7, b8, b9, b10, b11⟩ :=
      updateMetrics_success_fields v tags ps
        (updateMetrics ⟨some v, some tags, some ps⟩ st0 reg0 now1).state
        (updateMetrics ⟨some v, some tags, some ps⟩ st0 reg0 now1).reg now2 hno2
    have hr1run : (updateMetrics ⟨some v, some tags, some ps⟩ st0 reg0
        now1).reg.ollama_running_models =
        setList []
          ((ps.models.getD []).map (fun m => (runningName m, JsNum.num 1))) := by
      rw [a10, removeList_eq_nil_of_subset hrun]
    have hr1mem : (updateMetrics ⟨some v, some tags, some ps⟩ st0 reg0
        now1).reg.ollama_model_memory_bytes =
        setList []
          (((ps.models.getD []).filter (fun m => 0 < jsOrInt m.size_vram 0)).map
            (fun m => (runningName m, JsNum.num (jsOrInt m.size_vram 0)))) := by
      rw [a11, removeList_eq_nil_of_subset hmem]
    have hrem2run : removeList
        (updateMetrics ⟨some v, some tags, some ps⟩ st0 reg0
          now1).reg.ollama_running_models
        (updateMetrics ⟨some v, some tags, some ps⟩ st0 reg0
          now1).state.lastRunningModels = [] := by
      refine removeList_eq_nil_of_subset ?_
      intro p hp
      rw [hr1run] at hp
      have hk : p.1 ∈ keysOf (setList ([] : Series String)
          ((ps.models.getD []).map (fun m => (runningName m, JsNum.num 1)))) :=
        List.mem_map_of_mem Prod.fst hp
      rw [keysOf_setList_jsSet, List.map_map] at hk
      rw [a3, mem_jsSetOf]
      simpa [keysOf, jsSetOf, mem_foldl_jsSetAdd, Function.comp] using hk
    have hrem2mem : removeList
        (updateMetrics ⟨some v, some tags, some ps⟩ st0 reg0
          now1).reg.ollama_model_memory_bytes
        (updateMetrics ⟨some v, some tags, some ps⟩ st0 reg0
          now1).state.lastRunningModels = [] := by
      refine removeList_eq_nil_of_subset ?_
      intro p hp
      rw [hr1mem] at hp
      have hk : p.1 ∈ keysOf (setList ([] : Series String)
          (((ps.models.getD []).filter (fun m => 0 < jsOrInt m.size_vram 0)).map
            (fun m => (runningName m, JsNum.num (jsOrInt m.size_vram 0))))) :=
        List.mem_map_of_mem Prod.fst hp
      rw [keysOf_setList_jsSet, List.map_map] at hk
      rw [a3, mem_jsSetOf]
      have hk2 : p.1 ∈ ((ps.models.getD []).filter
          (fun m => 0 < jsOrInt m.size_vram 0)).map runningName := by
        simpa [keysOf, jsSetOf, mem_foldl_jsSetAdd, Function.comp] using hk
      rcases List.mem_map.mp hk2 with ⟨m, hm, hmp⟩
      rw [← hmp]
      exact List.mem_map_of_mem runningName (List.mem_of_mem_filter hm)
    refine ⟨b1, ?_⟩
    refine Registry.ext_fields ?_ ?_ ?_ ?_ ?_ ?_ ?_ ?_ rfl rfl rfl
    · simp [Registry.stripVolatile, b4, a4]
    · simp only [Registry.stripVolatile]
      rw [b5, a5, setSeries_setSeries_same]
    · simp [Registry.stripVolatile, b6, a6]
    · simp only [Registry.stripVolatile]
      rw [b7, a7, setList_overwrite _ hinfo]
    · simp only [Registry.stripVolatile]
      rw [b8, a8, setList_overwrite _ hsize]
    · simp only [Registry.stripVolatile]
      rw [b9, a9, setList_overwrite _ hmod]
    · simp only [Registry.stripVolatile]
      rw [b10, hrem2run, hr1run]
    · simp only [Registry.stripVolatile]
      rw [b11, hrem2mem, hr1mem]

/-- C9 witness: a concrete pair of identical successful cycles whose
registries agree once the counters and the timestamp are excluded. -/
theorem cycle_idempotent_modulo_counters_witness :
    Registry.stripVolatile
        (updateMetrics
          ⟨some { version := some "0" },
            some { models := some [{ name := some "A", size := some 5 }] },
            some { models := some [{ name := some "A", size_vram := some 3 }] }⟩
          (updateMetrics
            ⟨some { version := some "0" },
              some { models := some [{ name := some "A", size := some 5 }] },
              some { models := some [{ name := some "A", size_vram := some 3 }] }⟩
            ExporterState.init Registry.init 1).state
          (updateMetrics
            ⟨some { version := some "0" },
              some { models := some [{ name := some "A", size := some 5 }] },
              some { models := some [{ name := some "A", size_vram := some 3 }] }⟩
            ExporterState.init Registry.init 1).reg
          2).reg =
      Registry.stripVolatile
        (updateMetrics
          ⟨some { version := some "0" },
            some { models := some [{ name := some "A", size := some 5 }] },
            some { models := some [{ name := some "A", size_vram := some 3 }] }⟩
          ExporterState.init Registry.init 1).reg :=
  (cycle_idempotent_modulo_counters { version := some "0" }
    { models := some [{ name := some "A", size := some 5 }] }
    { models := some [{ name := some "A", size_vram := some 3 }] }
    ExporterState.init Registry.init 1 2
    (by decide) (by decide) (by decide) (by decide) (by decide) (by decide)).2

/-- C4 witness: a concrete failing cycle increments only the error label. -/
theorem scrapesTotal_one_increment_per_cycle_witness :
    (updateMetrics ⟨none, none, none⟩ ExporterState.init Registry.init 1).reg.scrapes_error =
        1 ∧
    (updateMetrics ⟨none, none, none⟩ ExporterState.init Registry.init
        1).reg.scrapes_success = 0 := by
  have h := scrapesTotal_one_increment_per_cycle ⟨none, none, none⟩ ExporterState.init
    Registry.init 1
  refine ⟨?_, ?_⟩
  · rw [h.2.2]
    decide
  · rw [h.2.1]
    decide

/-- C6 witness: a concrete failing cycle keeps the initial timestamp. -/
theorem lastScrape_only_on_success_witness :
    (updateMetrics ⟨none, none, none⟩ ExporterState.init Registry.init
        7).reg.last_scrape_timestamp = JsNum.num 0 := by
  rw [lastScrape_only_on_success]
  decide

/-- C7 witness: a concrete failed probe calls only the version endpoint and
drops the up gauge. -/
theorem health_failure_short_circuits_witness :
    (updateMetrics ⟨none, none, none⟩ ExporterState.init Registry.init 1).calls =
        ["version"] ∧
    (updateMetrics ⟨none, none, none⟩ ExporterState.init Registry.init 1).reg.ollama_up =
      JsNum.num 0 :=
  ⟨(health_failure_short_circuits none none ExporterState.init Registry.init 1).1,
    (health_failure_short_circuits none none ExporterState.init Registry.init 1).2.2.2.1⟩
